import Mathlib

/-!
Verification of the USDC (Crate) reader's Crate-to-Stage reconstruction
pipeline, shallowly embedded from `src/tinyusdz/src/usdc-reader.cc` and the
data model in `src/tinyusdz/src/prim-types.hh`.

Modelling conventions:
* C++ `bool` functions that push error strings and return `false` become
  `Except String` results; warning strings (`PUSH_WARN`) are threaded
  explicitly as `List String` values.
* Numeric payloads (`half`, `float`, `double`) are modelled as exact
  rationals.  The `half -> float` and `half -> double` widenings performed by
  `UpcastType` are exact on every finite half value, so they are the identity
  on the carried rational.
* `std::vector` becomes `List`; `std::map` / `std::set` become association
  lists with the same observable behaviour (`std::map::emplace` does not
  overwrite an existing key).
* Machine integers that matter are kept as `Nat`/`Int` with the explicit
  sentinel `2^32 - 1` for `~0u`.
-/

namespace tinyusdz

/-- Reader limits from `USDCReaderConfig` (the header defining the defaults is
not part of the sources; all results are parametric in the limits). -/
structure USDCReaderConfig where
  kMaxFieldValuePairs : Nat
  kMaxElementSize : Nat
  kMaxPrimNestLevel : Nat
deriving DecidableEq, Repr

/-- `SpecType` enum from prim-types.hh (wire-visible ordering). -/
inductive SpecType where
  | Unknown
  | Attribute
  | Connection
  | Expression
  | Mapper
  | MapperArg
  | Prim
  | PseudoRoot
  | Relationship
  | RelationshipTarget
  | Variant
  | VariantSet
  | Invalid
deriving DecidableEq, Repr

/-- `Interpolation` enum from prim-types.hh. -/
inductive Interpolation where
  | Constant
  | Uniform
  | Varying
  | Vertex
  | FaceVarying
  | Invalid
deriving DecidableEq, Repr

/-- `ListEditQual` enum from prim-types.hh. -/
inductive ListEditQual where
  | ResetToExplicit
  | Append
  | Add
  | Delete
  | Prepend
  | Order
  | Invalid
deriving DecidableEq, Repr

/-- `Specifier` enum from prim-types.hh. -/
inductive Specifier where
  | Def
  | Over
  | Class
  | Invalid
deriving DecidableEq, Repr

/-- `Variability` enum from prim-types.hh. -/
inductive Variability where
  | Varying
  | Uniform
  | Config
  | Invalid
deriving DecidableEq, Repr

/-- `Axis` enum from prim-types.hh. -/
inductive Axis where
  | X
  | Y
  | Z
  | Invalid
deriving DecidableEq, Repr

/-- `Kind` enum from prim-types.hh. -/
inductive Kind where
  | Model
  | Group
  | Assembly
  | Component
  | Subcomponent
  | SceneLibrary
  | Invalid
deriving DecidableEq, Repr

/-- `StringData` from prim-types.hh (line/column info elided: it is only used
by the USDA text path, never by the USDC reader). -/
structure StringData where
  value : String
  is_triple_quoted : Bool
deriving DecidableEq, Repr

/-- `hasNewline` from str-util.hh (not under src/).  Modelled from the spec:
`comment`/`documentation` strings are triple-quoted iff they contain a
newline. -/
def hasNewline (s : String) : Bool :=
  s.any (fun c => c = '\n')

/-- `Path` from prim-types.hh: a prim part, a property part and a validity
flag. -/
structure Path where
  prim_part : String
  prop_part : String
  valid : Bool
deriving DecidableEq, Repr, Inhabited

/-- The default-constructed (invalid) `Path`. -/
def Path.empty : Path := ⟨"", "", false⟩

def Path.GetPrimPart (p : Path) : String := p.prim_part

def Path.GetPropPart (p : Path) : String := p.prop_part

/-- `ListOp<T>` from prim-types.hh: an is-explicit flag plus six item
buckets. -/
structure ListOp (T : Type) where
  is_explicit : Bool
  explicit_items : List T
  added_items : List T
  prepended_items : List T
  appended_items : List T
  deleted_items : List T
  ordered_items : List T
deriving DecidableEq, Repr

/-- A default-constructed `ListOp` (non-explicit, all buckets empty). -/
def ListOp.empty (T : Type) : ListOp T := ⟨false, [], [], [], [], [], []⟩

/-- `TimeSamples` payload.  The sample values play no role in any claim under
verification, so only the sample times are carried. -/
structure TimeSamplesData where
  times : List ℚ
deriving DecidableEq, Repr

/-- `CustomDataType` (a `string -> MetaVariable` dictionary).  The claims never
inspect dictionary payloads, so values are carried as strings. -/
abbrev CustomDataType : Type := List (String × String)

/-- `value::Value` / `crate::CrateValue`: the tagged value container, with one
constructor per runtime type that the reconstruction pipeline distinguishes.
Scalar `half`/`float`/`double` payloads are exact rationals. -/
inductive Value where
  | vEmpty
  | vBool (b : Bool)
  | vInt (i : Int)
  | vToken (s : String)
  | vString (s : String)
  | vVariability (v : Variability)
  | vSpecifier (s : Specifier)
  | vHalf (x : ℚ)
  | vHalf2 (x y : ℚ)
  | vHalf3 (x y z : ℚ)
  | vHalf4 (x y z w : ℚ)
  | vFloat (x : ℚ)
  | vFloat2 (x y : ℚ)
  | vFloat3 (x y z : ℚ)
  | vFloat4 (x y z w : ℚ)
  | vDouble (x : ℚ)
  | vDouble2 (x y : ℚ)
  | vDouble3 (x y z : ℚ)
  | vDouble4 (x y z w : ℚ)
  | vTimeSamples (ts : TimeSamplesData)
  | vListOpPath (l : ListOp Path)
  | vListOpToken (l : ListOp String)
  | vPathVector (ps : List Path)
  | vTokenVector (ts : List String)
  | vDict (d : CustomDataType)
deriving DecidableEq, Repr

/-- `value::Value::type_name()`.  The name table lives in value-types.hh (not
under src/); modelled from the spec's USD type names (for example `half3`,
`float3`). -/
def Value.type_name : Value → String
  | .vEmpty => ""
  | .vBool _ => "bool"
  | .vInt _ => "int"
  | .vToken _ => "token"
  | .vString _ => "string"
  | .vVariability _ => "variability"
  | .vSpecifier _ => "specifier"
  | .vHalf _ => "half"
  | .vHalf2 _ _ => "half2"
  | .vHalf3 _ _ _ => "half3"
  | .vHalf4 _ _ _ _ => "half4"
  | .vFloat _ => "float"
  | .vFloat2 _ _ => "float2"
  | .vFloat3 _ _ _ => "float3"
  | .vFloat4 _ _ _ _ => "float4"
  | .vDouble _ => "double"
  | .vDouble2 _ _ => "double2"
  | .vDouble3 _ _ _ => "double3"
  | .vDouble4 _ _ _ _ => "double4"
  | .vTimeSamples _ => "TimeSamples"
  | .vListOpPath _ => "ListOp[Path]"
  | .vListOpToken _ => "ListOp[Token]"
  | .vPathVector _ => "Path[]"
  | .vTokenVector _ => "token[]"
  | .vDict _ => "dictionary"

/-- `half_to_float` (value-types, not under src/): exact on every finite half,
hence the identity on the carried rational. -/
def half_to_float (x : ℚ) : ℚ := x

/-- `float` to `double` widening: exact, hence the identity on the carried
rational. -/
def float_to_double (x : ℚ) : ℚ := x

/-- `value::TryGetUnderlyingTypeId` (value-types.cc, not under src/).
Modelled from the spec: a role type name (such as `color3f`) resolves to its
arithmetic base type; a base type name resolves to itself; an unknown name
fails.  The result is represented by the base type's name. -/
def TryGetUnderlyingTypeName (ty : String) : Option String :=
  if ty = "half" ∨ ty = "half2" ∨ ty = "half3" ∨ ty = "half4" ∨
     ty = "float" ∨ ty = "float2" ∨ ty = "float3" ∨ ty = "float4" ∨
     ty = "double" ∨ ty = "double2" ∨ ty = "double3" ∨ ty = "double4" ∨
     ty = "bool" ∨ ty = "int" ∨ ty = "token" ∨ ty = "string" then
    some ty
  else if ty = "texCoord2f" then some "float2"
  else if ty = "color3f" ∨ ty = "normal3f" ∨ ty = "point3f" ∨ ty = "vector3f" then
    some "float3"
  else if ty = "color4f" then some "float4"
  else if ty = "color3d" ∨ ty = "normal3d" ∨ ty = "point3d" ∨ ty = "vector3d" then
    some "double3"
  else if ty = "color4d" then some "double4"
  else
    none

/-- `UpcastType` from usdc-reader.cc (lines 668-755): consult the underlying
base type of the requested type name; if the held value is the half-precision
counterpart of a float/double scalar or 2/3/4-lane vector, widen it
component-wise; otherwise leave it unchanged (`none` models `return false`,
which leaves `inout` untouched). -/
def UpcastType (reqType : String) (v : Value) : Option Value :=
  match TryGetUnderlyingTypeName reqType with
  | none => none
  | some base =>
    if base = "float" then
      match v with
      | .vHalf h => some (.vFloat (half_to_float h))
      | _ => none
    else if base = "float2" then
      match v with
      | .vHalf2 x y => some (.vFloat2 (half_to_float x) (half_to_float y))
      | _ => none
    else if base = "float3" then
      match v with
      | .vHalf3 x y z =>
        some (.vFloat3 (half_to_float x) (half_to_float y) (half_to_float z))
      | _ => none
    else if base = "float4" then
      match v with
      | .vHalf4 x y z w =>
        some (.vFloat4 (half_to_float x) (half_to_float y) (half_to_float z)
          (half_to_float w))
      | _ => none
    else if base = "double" then
      match v with
      | .vHalf h => some (.vDouble (float_to_double (half_to_float h)))
      | _ => none
    else if base = "double2" then
      match v with
      | .vHalf2 x y =>
        some (.vDouble2 (float_to_double (half_to_float x))
          (float_to_double (half_to_float y)))
      | _ => none
    else if base = "double3" then
      match v with
      | .vHalf3 x y z =>
        some (.vDouble3 (float_to_double (half_to_float x))
          (float_to_double (half_to_float y)) (float_to_double (half_to_float z)))
      | _ => none
    else if base = "double4" then
      match v with
      | .vHalf4 x y z w =>
        some (.vDouble4 (float_to_double (half_to_float x))
          (float_to_double (half_to_float y)) (float_to_double (half_to_float z))
          (float_to_double (half_to_float w)))
      | _ => none
    else
      none

/-- `InterpolationFromString` (prim-types.cc, not under src/).  Modelled from
the spec's token-to-enum table for attribute interpolation. -/
def InterpolationFromString (s : String) : Option Interpolation :=
  if s = "constant" then some .Constant
  else if s = "uniform" then some .Uniform
  else if s = "varying" then some .Varying
  else if s = "vertex" then some .Vertex
  else if s = "faceVarying" then some .FaceVarying
  else none

/-- `KindFromString` (prim-types.cc, not under src/).  Modelled from the
spec's kind token set. -/
def KindFromString (s : String) : Option Kind :=
  if s = "model" then some .Model
  else if s = "group" then some .Group
  else if s = "assembly" then some .Assembly
  else if s = "component" then some .Component
  else if s = "subcomponent" then some .Subcomponent
  else if s = "sceneLibrary" then some .SceneLibrary
  else none

/-- `ValidatePrimName` (prim-types.cc, not under src/).  Modelled from the
spec, which does not constrain prim names beyond their existence; the reader
relies on crate-reader validation, so only emptiness is rejected here. -/
def ValidatePrimName (tok : String) : Bool :=
  tok ≠ ""

/-- Target kind of a `Relation` (prim-types.hh line 1300). -/
inductive RelationType where
  | Empty
  | RString
  | RPath
  | RPathVector
deriving DecidableEq, Repr

/-- `Relation` from prim-types.hh: target storage plus a list-edit
qualifier.  (`AttrMeta meta` member elided: the USDC reader never touches
it.) -/
structure Relation where
  type : RelationType
  targetString : String
  targetPath : Path
  targetPathVector : List Path
  listOpQual : ListEditQual
deriving DecidableEq, Repr

/-- A default-constructed `Relation`. -/
def Relation.empty : Relation :=
  ⟨.Empty, "", Path.empty, [], .ResetToExplicit⟩

def Relation.SetEmpty (r : Relation) : Relation :=
  { r with type := .Empty }

def Relation.SetPath (r : Relation) (p : Path) : Relation :=
  { r with type := .RPath, targetPath := p }

def Relation.SetPathVector (r : Relation) (pv : List Path) : Relation :=
  { r with type := .RPathVector, targetPathVector := pv }

def Relation.SetListEditQualifier (r : Relation) (q : ListEditQual) : Relation :=
  { r with listOpQual := q }

/-- `AttrMeta` fields that `ParseProperty` can populate. -/
structure AttrMeta where
  interpolation : Option Interpolation
  elementSize : Option Int
  customData : Option CustomDataType
  comment : Option StringData
deriving DecidableEq, Repr

def AttrMeta.empty : AttrMeta := ⟨none, none, none, none⟩

/-- `primvar::PrimVar` (primvar.hh, not under src/).  Modelled from the spec:
an attribute value is either unset, a scalar value box, or a time-sample
series. -/
inductive PrimVar where
  | unset
  | scalar (v : Value)
  | timeSamples (ts : TimeSamplesData)
deriving DecidableEq, Repr

/-- Type name reported by a `PrimVar` (used by `PrimAttrib.set_var` to seed
the attribute's type name when it is still empty). -/
def PrimVar.type_name : PrimVar → String
  | .unset => ""
  | .scalar v => v.type_name
  | .timeSamples _ => "TimeSamples"

/-- `PrimAttrib` from prim-types.hh (lines 1368-1421). -/
structure PrimAttrib where
  type_name_ : String
  variability : Variability
  meta : AttrMeta
  var : PrimVar
deriving DecidableEq, Repr

/-- A default-constructed `PrimAttrib`. -/
def PrimAttrib.empty : PrimAttrib :=
  ⟨"", .Varying, AttrMeta.empty, .unset⟩

/-- `PrimAttrib::set_var`: adopt the var's type name when none was set yet. -/
def PrimAttrib.set_var (a : PrimAttrib) (v : PrimVar) : PrimAttrib :=
  { a with
    type_name_ := if a.type_name_ = "" then v.type_name else a.type_name_,
    var := v }

/-- `Property::Type` from prim-types.hh (line 1485). -/
inductive PropertyType where
  | EmptyAttrib
  | Attrib
  | Relation
  | NoTargetsRelation
  | Connection
deriving DecidableEq, Repr

/-- `Property` from prim-types.hh (line 1483). -/
structure Property where
  attrib : PrimAttrib
  rel : Relation
  type : PropertyType
  listOpQual : ListEditQual
  has_custom : Bool
deriving DecidableEq, Repr

/-- `Property(type_name, custom)` constructor: an empty attribute carrying a
declared type name. -/
def Property.fromTypeName (type_name : String) (custom : Bool) : Property :=
  ⟨{ PrimAttrib.empty with type_name_ := type_name },
   Relation.empty, .EmptyAttrib, .ResetToExplicit, custom⟩

/-- `Property(attrib, custom)` constructor. -/
def Property.fromAttrib (a : PrimAttrib) (custom : Bool) : Property :=
  ⟨a, Relation.empty, .Attrib, .ResetToExplicit, custom⟩

/-- `Property(rel, isConnection, custom)` constructor. -/
def Property.fromRel (r : Relation) (isConnection : Bool) (custom : Bool) :
    Property :=
  ⟨PrimAttrib.empty, r, if isConnection then .Connection else .Relation,
   .ResetToExplicit, custom⟩

/-- `USDCReader::Impl::DecodeListOp` from usdc-reader.cc (lines 558-588):
collapse a `ListOp` into `(qualifier, items)` pairs, one per non-empty
bucket, in the order Explicit, Add, Append, Delete, Prepend, Order. -/
def DecodeListOp {T : Type} (arg : ListOp T) :
    List (ListEditQual × List T) :=
  if arg.is_explicit then
    [(.ResetToExplicit, arg.explicit_items)]
  else
    (if arg.explicit_items.length ≠ 0 then
      [(ListEditQual.ResetToExplicit, arg.explicit_items)] else []) ++
    (if arg.added_items.length ≠ 0 then
      [(ListEditQual.Add, arg.added_items)] else []) ++
    (if arg.appended_items.length ≠ 0 then
      [(ListEditQual.Append, arg.appended_items)] else []) ++
    (if arg.deleted_items.length ≠ 0 then
      [(ListEditQual.Delete, arg.deleted_items)] else []) ++
    (if arg.prepended_items.length ≠ 0 then
      [(ListEditQual.Prepend, arg.prepended_items)] else []) ++
    (if arg.ordered_items.length ≠ 0 then
      [(ListEditQual.Order, arg.ordered_items)] else [])

/-- Printable name of a `ListEditQual`, used in the multi-bucket warning
message (pprinter.cc, not under src/; the exact rendering is irrelevant to
every claim). -/
def ListEditQual.render : ListEditQual → String
  | .ResetToExplicit => "unqualified"
  | .Append => "append"
  | .Add => "add"
  | .Delete => "delete"
  | .Prepend => "prepend"
  | .Order => "order"
  | .Invalid => "invalid"

/-- A decoded field-value pair (`crate::FieldValuePair`). -/
abbrev FieldValue : Type := String × Value

/-- Mutable locals of `USDCReader::Impl::ParseProperty` (usdc-reader.cc lines
777-795), threaded through the field loop.  `warns` collects `PUSH_WARN`
output. -/
structure PPState where
  custom : Bool
  typeName : Option String
  interpolation : Option Interpolation
  elementSize : Option Int
  customData : Option CustomDataType
  comment : Option StringData
  propType : PropertyType
  attr : PrimAttrib
  is_scalar : Bool
  scalar : Value
  rel : Relation
  warns : List String
deriving DecidableEq, Repr

/-- Initial `ParseProperty` locals. -/
def PPState.init : PPState :=
  ⟨false, none, none, none, none, none, .EmptyAttrib, PrimAttrib.empty,
   false, .vEmpty, Relation.empty, []⟩

/-- Field handlers of the `ParseProperty` field loop (usdc-reader.cc lines
800-1014), one helper per recognized field name. -/
def parseFieldCustom (st : PPState) (v : Value) : Except String PPState :=
  match v with
  | .vBool b => .ok { st with custom := b }
  | _ => .error "`custom` field is not `bool` type."

def parseFieldVariability (st : PPState) (v : Value) : Except String PPState :=
  match v with
  | .vVariability x =>
    .ok { st with attr := { st.attr with variability := x } }
  | _ => .error "`variability` field is not `varibility` type."

def parseFieldTypeName (st : PPState) (v : Value) : Except String PPState :=
  match v with
  | .vToken t => .ok { st with typeName := some t }
  | _ => .error "`typeName` field is not `token` type."

def parseFieldDefault (st : PPState) (v : Value) : Except String PPState :=
  .ok { st with propType := .Attrib, scalar := v, is_scalar := true }

def parseFieldTimeSamples (st : PPState) (v : Value) : Except String PPState :=
  match v with
  | .vTimeSamples ts =>
    .ok { st with propType := .Attrib,
                  attr := st.attr.set_var (.timeSamples ts) }
  | _ => .error "`timeSamples` is not TimeSamples data."

def parseFieldInterpolation (st : PPState) (v : Value) :
    Except String PPState :=
  match v with
  | .vToken t =>
    match InterpolationFromString t with
    | some i => .ok { st with propType := .Attrib, interpolation := some i }
    | none => .error "Invalid token for `interpolation`."
  | _ => .error "`interpolation` field is not `token` type."

def parseFieldConnectionPaths (st : PPState) (v : Value) :
    Except String PPState :=
  match v with
  | .vListOpPath p =>
    if ¬ p.is_explicit then
      .error "`connectionPaths` must be composed of Explicit items."
    else if p.explicit_items.length = 0 then
      .error "`connectionPaths` have empty Explicit items."
    else if p.explicit_items.length = 1 then
      .ok { st with propType := .Connection,
                    rel := st.rel.SetPath (p.explicit_items.headD Path.empty) }
    else
      .ok { st with propType := .Connection,
                    rel := st.rel.SetPathVector p.explicit_items }
  | _ => .error "`connectionPaths` field is not `ListOp[Path]` type."

def parseFieldTargetPaths (st : PPState) (v : Value) :
    Except String PPState :=
  match v with
  | .vListOpPath p =>
    if (DecodeListOp p).length = 0 then
      .error "`targetPaths` is empty."
    else
      .ok { st with propType := .Relation,
                    warns :=
                      if 1 < (DecodeListOp p).length then
                        st.warns ++
                          ["ListOp with multiple ListOpType is not supported for now. Use the first one: "
                            ++ ((DecodeListOp p).headD (.ResetToExplicit, [])).1.render]
                      else st.warns,
                    rel :=
                      (if ((DecodeListOp p).headD (.ResetToExplicit, [])).2.length = 1 then
                        st.rel.SetPath
                          (((DecodeListOp p).headD (.ResetToExplicit, [])).2.headD Path.empty)
                      else
                        st.rel.SetPathVector
                          ((DecodeListOp p).headD (.ResetToExplicit, [])).2).SetListEditQualifier
                        ((DecodeListOp p).headD (.ResetToExplicit, [])).1 }
  | _ => .error "`targetPaths` field is not `ListOp[Path]` type."

def parseFieldElementSize (cfg : USDCReaderConfig) (st : PPState) (v : Value) :
    Except String PPState :=
  match v with
  | .vInt p =>
    if p < 1 ∨ (cfg.kMaxElementSize : Int) < p then
      .error "`elementSize` out of range."
    else
      .ok { st with elementSize := some p }
  | _ => .error "`elementSize` field is not `int` type."

def parseFieldTargetChildren (st : PPState) (v : Value) :
    Except String PPState :=
  match v with
  | .vPathVector _ => .ok st
  | _ => .error "`targetChildren` field is not `PathVector` type."

def parseFieldConnectionChildren (st : PPState) (v : Value) :
    Except String PPState :=
  match v with
  | .vPathVector _ => .ok st
  | _ => .error "`connectionChildren` field is not `PathVector` type."

def parseFieldCustomData (st : PPState) (v : Value) : Except String PPState :=
  match v with
  | .vDict d => .ok { st with customData := some d }
  | _ => .error "`customData` must be type `dictionary`."

def parseFieldComment (st : PPState) (v : Value) : Except String PPState :=
  match v with
  | .vString s => .ok { st with comment := some ⟨s, hasNewline s⟩ }
  | _ => .error "`comment` must be type `string`."

def parseFieldUnknown (st : PPState) (name : String) : Except String PPState :=
  .ok { st with warns := st.warns ++ ["TODO: " ++ name] }

/-- One iteration of the `ParseProperty` field loop (usdc-reader.cc lines
800-1014): dispatch on the field name. -/
def parsePropertyField (cfg : USDCReaderConfig) (st : PPState)
    (fv : FieldValue) : Except String PPState :=
  if fv.1 = "custom" then parseFieldCustom st fv.2
  else if fv.1 = "variability" then parseFieldVariability st fv.2
  else if fv.1 = "typeName" then parseFieldTypeName st fv.2
  else if fv.1 = "default" then parseFieldDefault st fv.2
  else if fv.1 = "timeSamples" then parseFieldTimeSamples st fv.2
  else if fv.1 = "interpolation" then parseFieldInterpolation st fv.2
  else if fv.1 = "connectionPaths" then parseFieldConnectionPaths st fv.2
  else if fv.1 = "targetPaths" then parseFieldTargetPaths st fv.2
  else if fv.1 = "elementSize" then parseFieldElementSize cfg st fv.2
  else if fv.1 = "targetChildren" then parseFieldTargetChildren st fv.2
  else if fv.1 = "connectionChildren" then parseFieldConnectionChildren st fv.2
  else if fv.1 = "customData" then parseFieldCustomData st fv.2
  else if fv.1 = "comment" then parseFieldComment st fv.2
  else parseFieldUnknown st fv.1

/-- Scalar up-cast step of `ParseProperty` (usdc-reader.cc lines 1033-1047):
when a type name was declared and differs from the scalar's runtime type, try
`UpcastType`; on failure the scalar is kept as-is. -/
def upcastScalarValue (st : PPState) : Value :=
  match st.typeName with
  | some reqTy =>
    if reqTy ≠ st.scalar.type_name then
      match UpcastType reqTy st.scalar with
      | some v => v
      | none => st.scalar
    else st.scalar
  | none => st.scalar

/-- Lines 1033-1051 of usdc-reader.cc: when a `default` scalar was seen, store
it (after up-cast) into the attribute's var. -/
def applyScalarUpcast (st : PPState) : PPState :=
  if st.is_scalar then
    { st with attr := st.attr.set_var (.scalar (upcastScalarValue st)) }
  else st

/-- Lines 1053-1065 of usdc-reader.cc: install the collected metas into the
attribute. -/
def attrWithMetas (st : PPState) : PrimAttrib :=
  { st.attr with
    meta := ⟨st.interpolation, st.elementSize, st.customData, st.comment⟩ }

/-- Classification tail of `ParseProperty` (usdc-reader.cc lines 1033-1092). -/
def parsePropertyPost (spec_type : SpecType) (st0 : PPState) :
    Except String (Property × List String) :=
  let st := applyScalarUpcast st0
  match st.propType with
  | .EmptyAttrib =>
    match st.typeName with
    | some tn => .ok (Property.fromTypeName tn st.custom, st.warns)
    | none =>
      if spec_type = SpecType.Relationship then
        .ok (Property.fromRel Relation.empty.SetEmpty false st.custom, st.warns)
      else
        .error "`typeName` field is missing."
  | .Attrib => .ok (Property.fromAttrib (attrWithMetas st) st.custom, st.warns)
  | .Connection => .ok (Property.fromRel st.rel true st.custom, st.warns)
  | .Relation => .ok (Property.fromRel st.rel false st.custom, st.warns)
  | .NoTargetsRelation => .error "TODO:"

/-- `USDCReader::Impl::ParseProperty` from usdc-reader.cc (lines 770-1093):
fold the fieldset through `parsePropertyField`, apply the scalar up-cast,
install attribute metas, then classify by the final `propType`. -/
def ParseProperty (cfg : USDCReaderConfig) (spec_type : SpecType)
    (fvs : List FieldValue) : Except String (Property × List String) :=
  if cfg.kMaxFieldValuePairs < fvs.length then
    .error "Too much FieldValue pairs."
  else
    match fvs.foldlM (parsePropertyField cfg) PPState.init with
    | .error e => .error e
    | .ok st => parsePropertyPost spec_type st

theorem applyScalarUpcast_propType (st : PPState) :
    (applyScalarUpcast st).propType = st.propType := by
  unfold applyScalarUpcast
  split <;> rfl

theorem applyScalarUpcast_typeName (st : PPState) :
    (applyScalarUpcast st).typeName = st.typeName := by
  unfold applyScalarUpcast
  split <;> rfl

theorem applyScalarUpcast_custom (st : PPState) :
    (applyScalarUpcast st).custom = st.custom := by
  unfold applyScalarUpcast
  split <;> rfl

theorem applyScalarUpcast_warns (st : PPState) :
    (applyScalarUpcast st).warns = st.warns := by
  unfold applyScalarUpcast
  split <;> rfl

theorem applyScalarUpcast_rel (st : PPState) :
    (applyScalarUpcast st).rel = st.rel := by
  unfold applyScalarUpcast
  split <;> rfl

/-- Example reader limits used for concrete test inputs. -/
def exampleConfig : USDCReaderConfig := ⟨16, 1024, 1024⟩

/-- How one field updates the running `propType` classification state of
`ParseProperty`: `default`, `timeSamples` and `interpolation` switch to
`Attrib`, `connectionPaths` to `Connection`, `targetPaths` to `Relation`,
every other field leaves it unchanged. -/
def classifyFieldFold (t : PropertyType) (name : String) : PropertyType :=
  if name = "default" ∨ name = "timeSamples" ∨ name = "interpolation" then
    .Attrib
  else if name = "connectionPaths" then .Connection
  else if name = "targetPaths" then .Relation
  else t

/-- The property classification `ParseProperty` commits to, described
independently: the last classifying field wins; with no classifying field, a
seen `typeName` yields an empty attribute, a `Relationship` spec-type yields a
no-target relationship, and anything else is an error (`none`). -/
def specClassification (spec_type : SpecType) (fvs : List FieldValue) :
    Option PropertyType :=
  match fvs.foldl (fun t fv => classifyFieldFold t fv.1) PropertyType.EmptyAttrib with
  | .EmptyAttrib =>
    if fvs.any (fun fv => fv.1 = "typeName") then some .EmptyAttrib
    else if spec_type = SpecType.Relationship then some .Relation
    else none
  | t => some t

theorem parseFieldCustom_classify (st : PPState) (v : Value) (st' : PPState)
    (h : parseFieldCustom st v = .ok st') :
    st'.propType = st.propType ∧ st'.typeName = st.typeName := by
  cases v <;> simp only [parseFieldCustom] at h <;>
    first
      | exact Except.noConfusion h
      | (injection h with h; subst h; exact ⟨rfl, rfl⟩)

theorem parseFieldVariability_classify (st : PPState) (v : Value) (st' : PPState)
    (h : parseFieldVariability st v = .ok st') :
    st'.propType = st.propType ∧ st'.typeName = st.typeName := by
  cases v <;> simp only [parseFieldVariability] at h <;>
    first
      | exact Except.noConfusion h
      | (injection h with h; subst h; exact ⟨rfl, rfl⟩)

theorem parseFieldTypeName_classify (st : PPState) (v : Value) (st' : PPState)
    (h : parseFieldTypeName st v = .ok st') :
    st'.propType = st.propType ∧ st'.typeName.isSome = true := by
  cases v <;> simp only [parseFieldTypeName] at h <;>
    first
      | exact Except.noConfusion h
      | (injection h with h; subst h; exact ⟨rfl, rfl⟩)

theorem parseFieldDefault_classify (st : PPState) (v : Value) (st' : PPState)
    (h : parseFieldDefault st v = .ok st') :
    st'.propType = .Attrib ∧ st'.typeName = st.typeName := by
  simp only [parseFieldDefault] at h
  injection h with h
  subst h
  exact ⟨rfl, rfl⟩

theorem parseFieldTimeSamples_classify (st : PPState) (v : Value) (st' : PPState)
    (h : parseFieldTimeSamples st v = .ok st') :
    st'.propType = .Attrib ∧ st'.typeName = st.typeName := by
  cases v <;> simp only [parseFieldTimeSamples] at h <;>
    first
      | exact Except.noConfusion h
      | (injection h with h; subst h; exact ⟨rfl, rfl⟩)

theorem parseFieldInterpolation_classify (st : PPState) (v : Value) (st' : PPState)
    (h : parseFieldInterpolation st v = .ok st') :
    st'.propType = .Attrib ∧ st'.typeName = st.typeName := by
  cases v <;> simp only [parseFieldInterpolation] at h <;>
    first
      | exact Except.noConfusion h
      | (injection h with h; subst h; exact ⟨rfl, rfl⟩)
      | (repeat' split at h
         all_goals
           first
             | exact Except.noConfusion h
             | (injection h with h; subst h; exact ⟨rfl, rfl⟩))

theorem parseFieldConnectionPaths_classify (st : PPState) (v : Value)
    (st' : PPState) (h : parseFieldConnectionPaths st v = .ok st') :
    st'.propType = .Connection ∧ st'.typeName = st.typeName := by
  cases v <;> simp only [parseFieldConnectionPaths] at h <;>
    first
      | exact Except.noConfusion h
      | (repeat' split at h
         all_goals
           first
             | exact Except.noConfusion h
             | (injection h with h; subst h; exact ⟨rfl, rfl⟩))

theorem parseFieldTargetPaths_classify (st : PPState) (v : Value)
    (st' : PPState) (h : parseFieldTargetPaths st v = .ok st') :
    st'.propType = .Relation ∧ st'.typeName = st.typeName := by
  cases v <;> simp only [parseFieldTargetPaths] at h <;>
    first
      | exact Except.noConfusion h
      | (repeat' split at h
         all_goals
           first
             | exact Except.noConfusion h
             | (injection h with h; subst h; exact ⟨rfl, rfl⟩))

theorem parseFieldElementSize_classify (cfg : USDCReaderConfig) (st : PPState)
    (v : Value) (st' : PPState)
    (h : parseFieldElementSize cfg st v = .ok st') :
    st'.propType = st.propType ∧ st'.typeName = st.typeName := by
  cases v <;> simp only [parseFieldElementSize] at h <;>
    first
      | exact Except.noConfusion h
      | (repeat' split at h
         all_goals
           first
             | exact Except.noConfusion h
             | (injection h with h; subst h; exact ⟨rfl, rfl⟩))

theorem parseFieldTargetChildren_classify (st : PPState) (v : Value)
    (st' : PPState) (h : parseFieldTargetChildren st v = .ok st') :
    st'.propType = st.propType ∧ st'.typeName = st.typeName := by
  cases v <;> simp only [parseFieldTargetChildren] at h <;>
    first
      | exact Except.noConfusion h
      | (injection h with h; subst h; exact ⟨rfl, rfl⟩)

theorem parseFieldConnectionChildren_classify (st : PPState) (v : Value)
    (st' : PPState) (h : parseFieldConnectionChildren st v = .ok st') :
    st'.propType = st.propType ∧ st'.typeName = st.typeName := by
  cases v <;> simp only [parseFieldConnectionChildren] at h <;>
    first
      | exact Except.noConfusion h
      | (injection h with h; subst h; exact ⟨rfl, rfl⟩)

theorem parseFieldCustomData_classify (st : PPState) (v : Value) (st' : PPState)
    (h : parseFieldCustomData st v = .ok st') :
    st'.propType = st.propType ∧ st'.typeName = st.typeName := by
  cases v <;> simp only [parseFieldCustomData] at h <;>
    first
      | exact Except.noConfusion h
      | (injection h with h; subst h; exact ⟨rfl, rfl⟩)

theorem parseFieldComment_classify (st : PPState) (v : Value) (st' : PPState)
    (h : parseFieldComment st v = .ok st') :
    st'.propType = st.propType ∧ st'.typeName = st.typeName := by
  cases v <;> simp only [parseFieldComment] at h <;>
    first
      | exact Except.noConfusion h
      | (injection h with h; subst h; exact ⟨rfl, rfl⟩)

theorem parseFieldUnknown_classify (st : PPState) (name : String) (st' : PPState)
    (h : parseFieldUnknown st name = .ok st') :
    st'.propType = st.propType ∧ st'.typeName = st.typeName := by
  simp only [parseFieldUnknown] at h
  injection h with h
  subst h
  exact ⟨rfl, rfl⟩

theorem parsePropertyField_classify (cfg : USDCReaderConfig) (st : PPState)
    (fv : FieldValue) (st' : PPState)
    (h : parsePropertyField cfg st fv = .ok st') :
    st'.propType = classifyFieldFold st.propType fv.1 ∧
    st'.typeName.isSome = (st.typeName.isSome || decide (fv.1 = "typeName")) := by
  rcases fv with ⟨n, v⟩
  show st'.propType = classifyFieldFold st.propType n ∧
    st'.typeName.isSome = (st.typeName.isSome || decide (n = "typeName"))
  unfold parsePropertyField at h
  simp only at h
  by_cases h1 : n = "custom"
  · rw [if_pos h1] at h
    obtain ⟨hp, ht⟩ := parseFieldCustom_classify st v st' h
    constructor <;> simp_all [classifyFieldFold]
  rw [if_neg h1] at h
  by_cases h2 : n = "variability"
  · rw [if_pos h2] at h
    obtain ⟨hp, ht⟩ := parseFieldVariability_classify st v st' h
    constructor <;> simp_all [classifyFieldFold]
  rw [if_neg h2] at h
  by_cases h3 : n = "typeName"
  · rw [if_pos h3] at h
    obtain ⟨hp, ht⟩ := parseFieldTypeName_classify st v st' h
    constructor <;> simp_all [classifyFieldFold]
  rw [if_neg h3] at h
  by_cases h4 : n = "default"
  · rw [if_pos h4] at h
    obtain ⟨hp, ht⟩ := parseFieldDefault_classify st v st' h
    constructor <;> simp_all [classifyFieldFold]
  rw [if_neg h4] at h
  by_cases h5 : n = "timeSamples"
  · rw [if_pos h5] at h
    obtain ⟨hp, ht⟩ := parseFieldTimeSamples_classify st v st' h
    constructor <;> simp_all [classifyFieldFold]
  rw [if_neg h5] at h
  by_cases h6 : n = "interpolation"
  · rw [if_pos h6] at h
    obtain ⟨hp, ht⟩ := parseFieldInterpolation_classify st v st' h
    constructor <;> simp_all [classifyFieldFold]
  rw [if_neg h6] at h
  by_cases h7 : n = "connectionPaths"
  · rw [if_pos h7] at h
    obtain ⟨hp, ht⟩ := parseFieldConnectionPaths_classify st v st' h
    constructor <;> simp_all [classifyFieldFold]
  rw [if_neg h7] at h
  by_cases h8 : n = "targetPaths"
  · rw [if_pos h8] at h
    obtain ⟨hp, ht⟩ := parseFieldTargetPaths_classify st v st' h
    constructor <;> simp_all [classifyFieldFold]
  rw [if_neg h8] at h
  by_cases h9 : n = "elementSize"
  · rw [if_pos h9] at h
    obtain ⟨hp, ht⟩ := parseFieldElementSize_classify cfg st v st' h
    constructor <;> simp_all [classifyFieldFold]
  rw [if_neg h9] at h
  by_cases h10 : n = "targetChildren"
  · rw [if_pos h10] at h
    obtain ⟨hp, ht⟩ := parseFieldTargetChildren_classify st v st' h
    constructor <;> simp_all [classifyFieldFold]
  rw [if_neg h10] at h
  by_cases h11 : n = "connectionChildren"
  · rw [if_pos h11] at h
    obtain ⟨hp, ht⟩ := parseFieldConnectionChildren_classify st v st' h
    constructor <;> simp_all [classifyFieldFold]
  rw [if_neg h11] at h
  by_cases h12 : n = "customData"
  · rw [if_pos h12] at h
    obtain ⟨hp, ht⟩ := parseFieldCustomData_classify st v st' h
    constructor <;> simp_all [classifyFieldFold]
  rw [if_neg h12] at h
  by_cases h13 : n = "comment"
  · rw [if_pos h13] at h
    obtain ⟨hp, ht⟩ := parseFieldComment_classify st v st' h
    constructor <;> simp_all [classifyFieldFold]
  rw [if_neg h13] at h
  obtain ⟨hp, ht⟩ := parseFieldUnknown_classify st n st' h
  constructor <;> simp_all [classifyFieldFold]

theorem foldlM_parsePropertyField_classify (cfg : USDCReaderConfig) :
    ∀ (fvs : List FieldValue) (st st' : PPState),
    fvs.foldlM (parsePropertyField cfg) st = .ok st' →
    st'.propType = fvs.foldl (fun t fv => classifyFieldFold t fv.1) st.propType ∧
    st'.typeName.isSome =
      fvs.foldl (fun b fv => b || decide (fv.1 = "typeName")) st.typeName.isSome := by
  intro fvs
  induction fvs with
  | nil =>
    intro st st' h
    simp only [List.foldlM_nil, pure, Except.pure, Except.ok.injEq] at h
    simp [h]
  | cons a rest ih =>
    intro st st' h
    rw [List.foldlM_cons] at h
    cases hstep : parsePropertyField cfg st a with
    | error e => rw [hstep] at h; simp [Bind.bind, Except.bind] at h
    | ok s1 =>
      rw [hstep] at h
      simp only [Bind.bind, Except.bind] at h
      obtain ⟨hp, ht⟩ := parsePropertyField_classify cfg st a s1 hstep
      obtain ⟨hp', ht'⟩ := ih s1 st' h
      constructor
      · rw [hp', hp, List.foldl_cons]
      · rw [ht', ht, List.foldl_cons]

theorem foldl_or_typeName (fvs : List FieldValue) (b : Bool) :
    fvs.foldl (fun b fv => b || decide (fv.1 = "typeName")) b =
      (b || fvs.any (fun fv => decide (fv.1 = "typeName"))) := by
  induction fvs generalizing b with
  | nil => simp
  | cons a rest ih =>
    rw [List.foldl_cons, ih, List.any_cons]
    cases b <;> simp [Bool.or_assoc]

theorem parsePropertyPost_classification (spec_type : SpecType)
    (st : PPState) (prop : Property) (ws : List String)
    (h : parsePropertyPost spec_type st = .ok (prop, ws)) :
    some prop.type =
      (match st.propType with
       | .EmptyAttrib =>
         if st.typeName.isSome then some PropertyType.EmptyAttrib
         else if spec_type = SpecType.Relationship then
           some PropertyType.Relation
         else none
       | t => some t) := by
  unfold parsePropertyPost at h
  simp only at h
  rw [applyScalarUpcast_propType] at h
  cases hpt : st.propType <;> rw [hpt] at h <;> simp only at h
  · rw [applyScalarUpcast_typeName] at h
    cases htn : st.typeName with
    | some tn =>
      rw [htn] at h
      simp only [Except.ok.injEq, Prod.mk.injEq] at h
      rw [← h.1]
      simp [Property.fromTypeName]
    | none =>
      rw [htn] at h
      by_cases hrel : spec_type = SpecType.Relationship
      · rw [if_pos hrel] at h
        simp only [Except.ok.injEq, Prod.mk.injEq] at h
        rw [← h.1]
        simp [Property.fromRel, hrel]
      · rw [if_neg hrel] at h
        exact Except.noConfusion h
  · simp only [Except.ok.injEq, Prod.mk.injEq] at h
    rw [← h.1]
    simp [Property.fromAttrib]
  · simp only [Except.ok.injEq, Prod.mk.injEq] at h
    rw [← h.1]
    simp [Property.fromRel]
  · exact Except.noConfusion h
  · simp only [Except.ok.injEq, Prod.mk.injEq] at h
    rw [← h.1]
    simp [Property.fromRel]

theorem ParseProperty_ok_classification (cfg : USDCReaderConfig)
    (spec_type : SpecType) (fvs : List FieldValue) (prop : Property)
    (ws : List String) (h : ParseProperty cfg spec_type fvs = .ok (prop, ws)) :
    some prop.type = specClassification spec_type fvs := by
  unfold ParseProperty at h
  by_cases hsz : cfg.kMaxFieldValuePairs < fvs.length
  · rw [if_pos hsz] at h
    exact Except.noConfusion h
  · rw [if_neg hsz] at h
    cases hfold : List.foldlM (parsePropertyField cfg) PPState.init fvs with
    | error e =>
      rw [hfold] at h
      exact Except.noConfusion h
    | ok st =>
      rw [hfold] at h
      obtain ⟨hp, ht⟩ :=
        foldlM_parsePropertyField_classify cfg fvs PPState.init st hfold
      rw [foldl_or_typeName] at ht
      simp only [PPState.init, Option.isSome_none, Bool.false_or] at hp ht
      have hcls := parsePropertyPost_classification spec_type st prop ws h
      unfold specClassification
      rw [← hp, ← ht]
      exact hcls

/-- C1 counterexample: a fieldset that carries a `default` field and then a
`targetPaths` field is classified as a Relationship by `ParseProperty`, not as
an Attr as the claimed precedence (`default`/`timeSamples` first) requires:
the running `propType` is overwritten by each classifying field, so the last
one wins. -/
theorem ParseProperty_default_then_targetPaths_is_relation :
    (ParseProperty exampleConfig SpecType.Attribute
        [("default", .vInt 7),
         ("targetPaths", .vListOpPath ⟨true, [⟨"/target", "", true⟩], [], [], [], [], []⟩)]).toOption.map
        (fun r => r.1.type) = some PropertyType.Relation ∧
    [("default", Value.vInt 7),
     ("targetPaths", Value.vListOpPath ⟨true, [⟨"/target", "", true⟩], [], [], [], [], []⟩)].any
        (fun fv => fv.1 = "default") = true ∧
    PropertyType.Relation ≠ PropertyType.Attrib := by
  refine ⟨?_, ?_, ?_⟩ <;> decide

/-- C1 (amended): `ParseProperty` classifies the resulting `Property` by the
last classifying field of the fieldset rather than by a fixed precedence: each
of `default`, `timeSamples` and `interpolation` switches the running state to
Attr, `connectionPaths` to Connection, `targetPaths` to Relationship, and the
final state decides; when no classifying field was seen, a seen `typeName`
yields an EmptyAttr, a `Relationship` spec-type yields a no-target
Relationship, and otherwise `ParseProperty` fails with a missing-typeName
error (`specClassification` states exactly this outcome). -/
theorem ParseProperty_classification_last_field_wins (cfg : USDCReaderConfig)
    (spec_type : SpecType) (fvs : List FieldValue) :
    (∀ prop ws, ParseProperty cfg spec_type fvs = .ok (prop, ws) →
       some prop.type = specClassification spec_type fvs) ∧
    (specClassification spec_type fvs = none →
       ∀ prop ws, ParseProperty cfg spec_type fvs ≠ .ok (prop, ws)) := by
  refine ⟨fun prop ws h =>
    ParseProperty_ok_classification cfg spec_type fvs prop ws h, ?_⟩
  intro hnone prop ws hok
  have hcls := ParseProperty_ok_classification cfg spec_type fvs prop ws hok
  rw [hnone] at hcls
  exact Option.noConfusion hcls

/-- Witness for the amended C1 theorem at a concrete input: an attribute
fieldset with no classifying field, no `typeName` and a non-Relationship
spec-type is rejected. -/
theorem ParseProperty_classification_last_field_wins_witness :
    ParseProperty exampleConfig SpecType.Attribute [] ≠
      Except.ok (Property.fromAttrib PrimAttrib.empty false, []) :=
  (ParseProperty_classification_last_field_wins exampleConfig
      SpecType.Attribute []).2 (by decide)
    (Property.fromAttrib PrimAttrib.empty false) []

/-- Spec-side statement of the up-cast rule, written from the spec's words:
if the inlined value is the half-precision counterpart (scalar or 2/3/4-lane
vector) of the declared type's float or double base type, it is widened
component-wise from half to that base type (exact, hence the components are
kept); otherwise no widening applies. -/
def widenHalfToDeclaredBase (declared : String) (v : Value) : Option Value :=
  match TryGetUnderlyingTypeName declared with
  | none => none
  | some base =>
    match v with
    | .vHalf x =>
      if base = "float" then some (.vFloat x)
      else if base = "double" then some (.vDouble x)
      else none
    | .vHalf2 x y =>
      if base = "float2" then some (.vFloat2 x y)
      else if base = "double2" then some (.vDouble2 x y)
      else none
    | .vHalf3 x y z =>
      if base = "float3" then some (.vFloat3 x y z)
      else if base = "double3" then some (.vDouble3 x y z)
      else none
    | .vHalf4 x y z w =>
      if base = "float4" then some (.vFloat4 x y z w)
      else if base = "double4" then some (.vDouble4 x y z w)
      else none
    | _ => none

theorem UpcastType_eq_widenHalfToDeclaredBase (tn : String) (v : Value) :
    UpcastType tn v = widenHalfToDeclaredBase tn v := by
  unfold UpcastType widenHalfToDeclaredBase
  cases h : TryGetUnderlyingTypeName tn with
  | none => rfl
  | some base =>
    by_cases h1 : base = "float"
    · subst h1; cases v <;> simp [half_to_float, float_to_double]
    by_cases h2 : base = "float2"
    · subst h2; cases v <;> simp [half_to_float, float_to_double]
    by_cases h3 : base = "float3"
    · subst h3; cases v <;> simp [half_to_float, float_to_double]
    by_cases h4 : base = "float4"
    · subst h4; cases v <;> simp [half_to_float, float_to_double]
    by_cases h5 : base = "double"
    · subst h5; cases v <;> simp [half_to_float, float_to_double]
    by_cases h6 : base = "double2"
    · subst h6; cases v <;> simp [half_to_float, float_to_double]
    by_cases h7 : base = "double3"
    · subst h7; cases v <;> simp [half_to_float, float_to_double]
    by_cases h8 : base = "double4"
    · subst h8; cases v <;> simp [half_to_float, float_to_double]
    cases v <;> simp [h1, h2, h3, h4, h5, h6, h7, h8]

theorem ParseProperty_upcast_general (cfg : USDCReaderConfig)
    (tn : String) (v : Value) (hcfg : 2 ≤ cfg.kMaxFieldValuePairs) :
    (ParseProperty cfg SpecType.Attribute
        [("typeName", .vToken tn), ("default", v)]).toOption.map
        (fun r => r.1.attrib.var) =
      some (.scalar
        (if tn = v.type_name then v
         else
           match widenHalfToDeclaredBase tn v with
           | some w => w
           | none => v)) := by
  have hsz : ¬ cfg.kMaxFieldValuePairs <
      ([("typeName", Value.vToken tn), ("default", v)] : List FieldValue).length := by
    simp only [List.length_cons, List.length_nil]
    omega
  unfold ParseProperty
  rw [if_neg hsz]
  have e1 : parsePropertyField cfg PPState.init ("typeName", .vToken tn) =
      .ok { PPState.init with typeName := some tn } := rfl
  have e2 : parsePropertyField cfg { PPState.init with typeName := some tn }
      ("default", v) =
      .ok { PPState.init with
              typeName := some tn
              propType := PropertyType.Attrib
              scalar := v
              is_scalar := true } := rfl
  rw [List.foldlM_cons, e1]
  simp only [Bind.bind, Except.bind]
  rw [List.foldlM_cons, e2]
  simp only [List.foldlM_nil]
  unfold parsePropertyPost
  simp only [applyScalarUpcast, upcastScalarValue,
    UpcastType_eq_widenHalfToDeclaredBase]
  by_cases htn : tn = v.type_name
  · simp [htn, attrWithMetas, PrimAttrib.set_var, Property.fromAttrib,
      Except.toOption]
  · cases hw : widenHalfToDeclaredBase tn v <;>
      simp [hw, htn, attrWithMetas, PrimAttrib.set_var, Property.fromAttrib,
        Except.toOption]

/-- C2: for a scalar attribute fieldset declaring type `tn` with a `default`
value `v`, the stored attribute value is: `v` itself when the declared name
equals the runtime type name; the component-wise half-to-float/double widening
when `v` is the half counterpart of `tn`'s base type; and `v` unchanged in
every other case.  In particular `typeName="float3"` with
`default=half3(1,2,3)` stores `float3(1,2,3)`. -/
theorem ParseProperty_upcasts_half_default (cfg : USDCReaderConfig)
    (tn : String) (v : Value) (hcfg : 2 ≤ cfg.kMaxFieldValuePairs) :
    (ParseProperty cfg SpecType.Attribute
        [("typeName", .vToken tn), ("default", v)]).toOption.map
        (fun r => r.1.attrib.var) =
      some (.scalar
        (if tn = v.type_name then v
         else
           match widenHalfToDeclaredBase tn v with
           | some w => w
           | none => v)) ∧
    (ParseProperty cfg SpecType.Attribute
        [("typeName", .vToken "float3"), ("default", .vHalf3 1 2 3)]).toOption.map
        (fun r => r.1.attrib.var) = some (.scalar (.vFloat3 1 2 3)) := by
  refine ⟨ParseProperty_upcast_general cfg tn v hcfg, ?_⟩
  have hgen := ParseProperty_upcast_general cfg "float3" (.vHalf3 1 2 3) hcfg
  simpa using hgen

/-- Witness for the C2 theorem at a concrete input: with the example limits,
`typeName="float3"`, `default=half3(1,2,3)` stores `float3(1,2,3)`. -/
theorem ParseProperty_upcasts_half_default_witness :
    (ParseProperty exampleConfig SpecType.Attribute
        [("typeName", .vToken "float3"), ("default", .vHalf3 1 2 3)]).toOption.map
        (fun r => r.1.attrib.var) = some (.scalar (.vFloat3 1 2 3)) :=
  (ParseProperty_upcasts_half_default exampleConfig "float3" (.vHalf3 1 2 3)
    (by decide)).2

/-- Number of non-empty buckets of a `ListOp`. -/
def nonEmptyBucketCount {T : Type} (lop : ListOp T) : Nat :=
  (if lop.explicit_items.length ≠ 0 then 1 else 0) +
  (if lop.added_items.length ≠ 0 then 1 else 0) +
  (if lop.appended_items.length ≠ 0 then 1 else 0) +
  (if lop.deleted_items.length ≠ 0 then 1 else 0) +
  (if lop.prepended_items.length ≠ 0 then 1 else 0) +
  (if lop.ordered_items.length ≠ 0 then 1 else 0)

/-- The first non-empty bucket of a `ListOp` in the order ResetToExplicit,
Add, Append, Delete, Prepend, Order (spec-side statement of the bucket
order). -/
def firstNonEmptyBucket {T : Type} (lop : ListOp T) : ListEditQual × List T :=
  if ¬ lop.explicit_items.isEmpty then (.ResetToExplicit, lop.explicit_items)
  else if ¬ lop.added_items.isEmpty then (.Add, lop.added_items)
  else if ¬ lop.appended_items.isEmpty then (.Append, lop.appended_items)
  else if ¬ lop.deleted_items.isEmpty then (.Delete, lop.deleted_items)
  else if ¬ lop.prepended_items.isEmpty then (.Prepend, lop.prepended_items)
  else (.Order, lop.ordered_items)

theorem DecodeListOp_length_nonexplicit {T : Type} (lop : ListOp T)
    (h : lop.is_explicit = false) :
    (DecodeListOp lop).length = nonEmptyBucketCount lop := by
  unfold DecodeListOp nonEmptyBucketCount
  rw [h]
  simp only [Bool.false_eq_true, if_false, List.length_append]
  rcases lop with ⟨_, e, a, p, ap, d, o⟩
  cases e <;> cases a <;> cases p <;> cases ap <;> cases d <;> cases o <;> simp

theorem DecodeListOp_headD_nonexplicit {T : Type} (lop : ListOp T)
    (h : lop.is_explicit = false) (h1 : 1 ≤ nonEmptyBucketCount lop) :
    (DecodeListOp lop).headD (.ResetToExplicit, []) = firstNonEmptyBucket lop := by
  unfold DecodeListOp firstNonEmptyBucket nonEmptyBucketCount at *
  rw [h]
  simp only [Bool.false_eq_true, if_false]
  rcases lop with ⟨_, e, a, p, ap, d, o⟩
  cases e <;> cases a <;> cases p <;> cases ap <;> cases d <;> cases o <;>
    simp_all

/-- C3 counterexample: a `targetPaths` list-op whose Prepend and Append
buckets are the only non-empty ones yields a relationship built from the
Append bucket (first in the decode order), not from the Prepend bucket as the
claim's concrete instance expects. -/
theorem ParseProperty_targetPaths_prepend_append_uses_append :
    (ParseProperty exampleConfig SpecType.Relationship
        [("targetPaths", .vListOpPath
          ⟨false, [], [], [⟨"/prependedTarget", "", true⟩],
           [⟨"/appendedTarget", "", true⟩], [], []⟩)]).toOption.map
        (fun r => (r.1.rel.listOpQual, r.1.rel.targetPath, r.2.length)) =
      some (ListEditQual.Append, ⟨"/appendedTarget", "", true⟩, 1) ∧
    (⟨"/appendedTarget", "", true⟩ : Path) ≠ ⟨"/prependedTarget", "", true⟩ ∧
    ListEditQual.Append ≠ ListEditQual.Prepend := by
  refine ⟨?_, ?_, ?_⟩ <;> decide

/-- C3 (amended): for a relationship fieldset whose `targetPaths` list-op is
non-explicit and has two or more non-empty buckets, `ParseProperty` succeeds,
emits one warning, and the relationship's targets are taken from the first
non-empty bucket in the order ResetToExplicit, Add, Append, Delete, Prepend,
Order; in particular when exactly the Prepend and Append buckets are
non-empty the Append bucket (which precedes Prepend in that order) is
used. -/
theorem ParseProperty_targetPaths_first_nonempty_bucket
    (cfg : USDCReaderConfig) (lop : ListOp Path)
    (hcfg : 1 ≤ cfg.kMaxFieldValuePairs) (hexp : lop.is_explicit = false)
    (h2 : 2 ≤ nonEmptyBucketCount lop) :
    ParseProperty cfg SpecType.Relationship
        [("targetPaths", .vListOpPath lop)] =
      .ok
        (Property.fromRel
          ((if (firstNonEmptyBucket lop).2.length = 1 then
              Relation.empty.SetPath ((firstNonEmptyBucket lop).2.headD Path.empty)
            else
              Relation.empty.SetPathVector (firstNonEmptyBucket lop).2).SetListEditQualifier
            (firstNonEmptyBucket lop).1)
          false false,
         ["ListOp with multiple ListOpType is not supported for now. Use the first one: "
           ++ (firstNonEmptyBucket lop).1.render]) := by
  have hsz : ¬ cfg.kMaxFieldValuePairs <
      ([("targetPaths", Value.vListOpPath lop)] : List FieldValue).length := by
    simp only [List.length_cons, List.length_nil]
    omega
  have hlen : (DecodeListOp lop).length = nonEmptyBucketCount lop :=
    DecodeListOp_length_nonexplicit lop hexp
  have hhd : (DecodeListOp lop).headD (.ResetToExplicit, []) =
      firstNonEmptyBucket lop :=
    DecodeListOp_headD_nonexplicit lop hexp (by omega)
  unfold ParseProperty
  rw [if_neg hsz]
  rw [List.foldlM_cons]
  have e1 : parsePropertyField cfg PPState.init
      ("targetPaths", .vListOpPath lop) =
      parseFieldTargetPaths PPState.init (.vListOpPath lop) := rfl
  rw [e1]
  unfold parseFieldTargetPaths
  simp only
  rw [hlen, hhd]
  rw [if_neg (by omega : ¬ nonEmptyBucketCount lop = 0)]
  rw [if_pos (by omega : 1 < nonEmptyBucketCount lop)]
  simp only [Bind.bind, Except.bind, List.foldlM_nil]
  unfold parsePropertyPost
  simp only [applyScalarUpcast, PPState.init]
  rfl

/-- Witness for the amended C3 theorem at a concrete input: Prepend and
Append non-empty, Append wins. -/
theorem ParseProperty_targetPaths_first_nonempty_bucket_witness :
    ParseProperty exampleConfig SpecType.Relationship
        [("targetPaths", .vListOpPath
          ⟨false, [], [], [⟨"/p", "", true⟩], [⟨"/a", "", true⟩], [], []⟩)] =
      .ok
        (Property.fromRel
          ((if (firstNonEmptyBucket
                (⟨false, [], [], [⟨"/p", "", true⟩], [⟨"/a", "", true⟩], [], []⟩ :
                  ListOp Path)).2.length = 1 then
              Relation.empty.SetPath
                ((firstNonEmptyBucket
                  (⟨false, [], [], [⟨"/p", "", true⟩], [⟨"/a", "", true⟩], [], []⟩ :
                    ListOp Path)).2.headD Path.empty)
            else
              Relation.empty.SetPathVector
                (firstNonEmptyBucket
                  (⟨false, [], [], [⟨"/p", "", true⟩], [⟨"/a", "", true⟩], [], []⟩ :
                    ListOp Path)).2).SetListEditQualifier
            (firstNonEmptyBucket
              (⟨false, [], [], [⟨"/p", "", true⟩], [⟨"/a", "", true⟩], [], []⟩ :
                ListOp Path)).1)
          false false,
         ["ListOp with multiple ListOpType is not supported for now. Use the first one: "
           ++ (firstNonEmptyBucket
             (⟨false, [], [], [⟨"/p", "", true⟩], [⟨"/a", "", true⟩], [], []⟩ :
               ListOp Path)).1.render]) :=
  ParseProperty_targetPaths_first_nonempty_bucket exampleConfig
    ⟨false, [], [], [⟨"/p", "", true⟩], [⟨"/a", "", true⟩], [], []⟩
    (by decide) (by decide) (by decide)

/-- `USDCReader::Impl::GetPath` from usdc-reader.cc (lines 254-260).  The
source guard is `index.value <= _paths.size()`; when it passes, the source
reads `_paths[index.value]`, which for `index.value = _paths.size()` is one
element past the end (undefined behaviour).  That out-of-bounds read is
modelled as producing the default-constructed `Path`. -/
def GetPath (paths : List Path) (index : Nat) : Option Path :=
  if index ≤ paths.length then some (paths.getD index Path.empty)
  else none

/-- `USDCReader::Impl::GetElemPath` from usdc-reader.cc (lines 262-268), with
the same `<=` guard and the same out-of-bounds read at `index = size`. -/
def GetElemPath (elemPaths : List Path) (index : Nat) : Option Path :=
  if index ≤ elemPaths.length then some (elemPaths.getD index Path.empty)
  else none

/-- C6: the path-registry lookups only reject indices strictly greater than
the table size; at the boundary index equal to the table size the `<=` guard
passes and the vector read goes one past the end (modelled as the junk
default path), instead of failing with no value as the claim requires. -/
theorem GetPath_bounds_check_off_by_one :
    (∀ (paths : List Path) (i : Nat), paths.length < i → GetPath paths i = none) ∧
    (∀ (elemPaths : List Path) (i : Nat), elemPaths.length < i →
       GetElemPath elemPaths i = none) ∧
    GetPath ([] : List Path) 0 = some Path.empty ∧
    GetElemPath ([] : List Path) 0 = some Path.empty := by
  refine ⟨?_, ?_, by decide, by decide⟩
  · intro paths i h
    unfold GetPath
    rw [if_neg (by omega)]
  · intro elemPaths i h
    unfold GetElemPath
    rw [if_neg (by omega)]

/-- Witness for the C6 theorem at concrete inputs: index one past a
singleton table is rejected, index zero into an empty table is (wrongly)
accepted. -/
theorem GetPath_bounds_check_off_by_one_witness :
    GetPath [Path.empty] 2 = none ∧ GetElemPath [Path.empty] 2 = none ∧
    GetPath ([] : List Path) 0 = some Path.empty :=
  ⟨GetPath_bounds_check_off_by_one.1 [Path.empty] 2 (by decide),
   GetPath_bounds_check_off_by_one.2.1 [Path.empty] 2 (by decide),
   GetPath_bounds_check_off_by_one.2.2.1⟩

/-- `crate::Spec` (crate-format.hh, not under src/): record of a path index,
a fieldset index and a spec type; indices are uint32, with `~0u` as the
invalid-path sentinel. -/
structure Spec where
  path_index : Nat
  fieldset_index : Nat
  spec_type : SpecType
deriving DecidableEq, Repr

/-- The uint32 sentinel `~0u`. -/
def kInvalidPathIndex : Nat := 2 ^ 32 - 1

/-- Lookup in the `path_index -> spec_index` map (modelling
`std::unordered_map::count/at`). -/
def psmapLookup (m : List (Nat × Nat)) (k : Nat) : Option Nat :=
  (m.find? (fun kv => kv.1 = k)).map (fun kv => kv.2)

/-- Loop body of the `path_index -> spec_index` map construction in
`ReconstructStage` (usdc-reader.cc lines 2307-2320): skip the `~0u` sentinel,
fail on a duplicate `path_index`, otherwise insert. -/
def buildPSMapAux : List Spec → Nat → List (Nat × Nat) →
    Except String (List (Nat × Nat))
  | [], _, acc => .ok acc
  | s :: rest, i, acc =>
    if s.path_index = kInvalidPathIndex then
      buildPSMapAux rest (i + 1) acc
    else if (psmapLookup acc s.path_index).isSome then
      .error "Multiple PathIndex found in Crate data."
    else
      buildPSMapAux rest (i + 1) (acc ++ [(s.path_index, i)])

/-- The `path_index -> spec_index` map construction of `ReconstructStage`. -/
def buildPathIndexToSpecIndexMap (specs : List Spec) :
    Except String (List (Nat × Nat)) :=
  buildPSMapAux specs 0 []

theorem psmapLookup_append_isSome (acc : List (Nat × Nat)) (kv : Nat × Nat)
    (k : Nat) (h : (psmapLookup acc k).isSome) :
    (psmapLookup (acc ++ [kv]) k).isSome := by
  unfold psmapLookup at *
  rw [List.find?_append]
  cases hf : acc.find? (fun kv => kv.1 = k) with
  | none => rw [hf] at h; simp at h
  | some kv' => simp [Option.or]

theorem psmapLookup_append_self (acc : List (Nat × Nat)) (k i : Nat) :
    (psmapLookup (acc ++ [(k, i)]) k).isSome := by
  unfold psmapLookup
  rw [List.find?_append]
  cases hf : acc.find? (fun kv => kv.1 = k) with
  | none => simp [Option.or, List.find?]
  | some kv' => simp [Option.or]

theorem buildPSMapAux_dup_error (specs : List Spec) :
    ∀ (i : Nat) (acc : List (Nat × Nat)) (k : Nat),
    k ≠ kInvalidPathIndex → (psmapLookup acc k).isSome →
    (∃ s ∈ specs, s.path_index = k) →
    buildPSMapAux specs i acc =
      .error "Multiple PathIndex found in Crate data." := by
  induction specs with
  | nil =>
    intro i acc k _ _ hex
    simp at hex
  | cons s rest ih =>
    intro i acc k hk hacc hex
    unfold buildPSMapAux
    by_cases hs : s.path_index = kInvalidPathIndex
    · rw [if_pos hs]
      rcases hex with ⟨s', hs', hk'⟩
      rcases List.mem_cons.mp hs' with h | h
      · refine absurd ?_ hk
        rw [← hk', h]
        exact hs
      · exact ih (i + 1) acc k hk hacc ⟨s', h, hk'⟩
    · rw [if_neg hs]
      by_cases hl : (psmapLookup acc s.path_index).isSome
      · rw [if_pos hl]
      · rw [if_neg hl]
        rcases hex with ⟨s', hs', hk'⟩
        rcases List.mem_cons.mp hs' with h | h
        · refine absurd ?_ hl
          rw [← h, hk']
          exact hacc
        · exact ih (i + 1) (acc ++ [(s.path_index, i)]) k hk
            (psmapLookup_append_isSome acc (s.path_index, i) k hacc)
            ⟨s', h, hk'⟩

theorem buildPSMapAux_no_sentinel (specs : List Spec) :
    ∀ (i : Nat) (acc m : List (Nat × Nat)),
    (∀ kv ∈ acc, kv.1 ≠ kInvalidPathIndex) →
    buildPSMapAux specs i acc = .ok m →
    ∀ kv ∈ m, kv.1 ≠ kInvalidPathIndex := by
  induction specs with
  | nil =>
    intro i acc m hacc h
    unfold buildPSMapAux at h
    injection h with h
    exact h ▸ hacc
  | cons s rest ih =>
    intro i acc m hacc h
    unfold buildPSMapAux at h
    by_cases hs : s.path_index = kInvalidPathIndex
    · rw [if_pos hs] at h
      exact ih (i + 1) acc m hacc h
    · rw [if_neg hs] at h
      by_cases hl : (psmapLookup acc s.path_index).isSome
      · rw [if_pos hl] at h
        exact Except.noConfusion h
      · rw [if_neg hl] at h
        refine ih (i + 1) (acc ++ [(s.path_index, i)]) m ?_ h
        intro kv hkv
        rcases List.mem_append.mp hkv with hkv | hkv
        · exact hacc kv hkv
        · simp only [List.mem_singleton] at hkv
          exact hkv ▸ hs

theorem buildPSMapAux_dup_of_count (specs : List Spec) :
    ∀ (i : Nat) (acc : List (Nat × Nat)) (k : Nat),
    k ≠ kInvalidPathIndex →
    2 ≤ (specs.filter (fun s => s.path_index = k)).length →
    buildPSMapAux specs i acc =
      .error "Multiple PathIndex found in Crate data." := by
  induction specs with
  | nil =>
    intro i acc k _ hcount
    simp at hcount
  | cons s rest ih =>
    intro i acc k hk hcount
    unfold buildPSMapAux
    by_cases hs : s.path_index = kInvalidPathIndex
    · rw [if_pos hs]
      have hne : ¬ s.path_index = k := fun h => hk (h ▸ hs)
      rw [List.filter_cons] at hcount
      simp [hne] at hcount
      exact ih (i + 1) acc k hk hcount
    · rw [if_neg hs]
      by_cases hl : (psmapLookup acc s.path_index).isSome
      · rw [if_pos hl]
      · rw [if_neg hl]
        by_cases hsk : s.path_index = k
        · have hrest : 1 ≤ (rest.filter (fun s => s.path_index = k)).length := by
            have hstep : ((s :: rest).filter (fun s => s.path_index = k)).length =
                (rest.filter (fun s => s.path_index = k)).length + 1 := by
              rw [List.filter_cons]
              simp [hsk]
            omega
          have hex : ∃ s' ∈ rest, s'.path_index = k := by
            have hne' : rest.filter (fun s => s.path_index = k) ≠ [] := by
              intro hempty
              rw [hempty] at hrest
              simp at hrest
            rcases List.exists_mem_of_ne_nil _ hne' with ⟨s', hs'⟩
            exact ⟨s', (List.mem_filter.mp hs').1,
              by simpa using (List.mem_filter.mp hs').2⟩
          refine buildPSMapAux_dup_error rest (i + 1)
            (acc ++ [(s.path_index, i)]) k hk ?_ hex
          rw [← hsk]
          exact psmapLookup_append_self acc s.path_index i
        · rw [List.filter_cons] at hcount
          simp [hsk] at hcount
          exact ih (i + 1) (acc ++ [(s.path_index, i)]) k hk hcount

/-- `APISchemas::APIName` from prim-types.hh (line 500). -/
inductive APIName where
  | MaterialBindingAPI
  | SkelBindingAPI
  | Preliminary_AnchoringAPI
  | Preliminary_PhysicsColliderAPI
  | Preliminary_PhysicsMaterialAPI
  | Preliminary_PhysicsRigidBodyAPI
deriving DecidableEq, Repr

/-- `APISchemas` from prim-types.hh (line 497). -/
structure APISchemas where
  listOpQual : ListEditQual
  names : List (APIName × String)
deriving DecidableEq, Repr

/-- The `SchemaHandler` lambda of `ToAPISchemas` (usdc-reader.cc lines
414-431): the closed set of recognized API schema tokens. -/
def SchemaHandler (tok : String) : Option APIName :=
  if tok = "MaterialBindingAPI" then some .MaterialBindingAPI
  else if tok = "SkelBindingAPI" then some .SkelBindingAPI
  else if tok = "Preliminary_AnchoringAPI" then some .Preliminary_AnchoringAPI
  else if tok = "Preliminary_PhysicsColliderAPI" then
    some .Preliminary_PhysicsColliderAPI
  else if tok = "Preliminary_PhysicsMaterialAPI" then
    some .Preliminary_PhysicsMaterialAPI
  else if tok = "Preliminary_PhysicsRigidBodyAPI" then
    some .Preliminary_PhysicsRigidBodyAPI
  else none

/-- The per-bucket item loop of `ToAPISchemas`: map every token through
`SchemaHandler` (with an empty instance name) or fail on the first
unrecognized one. -/
def mapAPISchemaItems (items : List String) :
    Except String (List (APIName × String)) :=
  items.mapM (fun tok =>
    match SchemaHandler tok with
    | some n => .ok (n, "")
    | none => .error ("Invalid or Unsupported API schema: " ++ tok))

/-- `USDCReader::Impl::ToAPISchemas` from usdc-reader.cc (lines 410-556). -/
def ToAPISchemas (arg : ListOp String) : Except String APISchemas :=
  if arg.is_explicit then
    match mapAPISchemaItems arg.explicit_items with
    | .error e => .error e
    | .ok names => .ok ⟨.ResetToExplicit, names⟩
  else if arg.explicit_items.length ≠ 0 then
    if arg.added_items.length ≠ 0 ∨ arg.appended_items.length ≠ 0 ∨
       arg.deleted_items.length ≠ 0 ∨ arg.prepended_items.length ≠ 0 ∨
       arg.ordered_items.length ≠ 0 then
      .error "Currently TinyUSDZ does not support ListOp with different ListEdit qualifiers."
    else
      match mapAPISchemaItems arg.explicit_items with
      | .error e => .error e
      | .ok names => .ok ⟨.ResetToExplicit, names⟩
  else if arg.added_items.length ≠ 0 then
    if arg.explicit_items.length ≠ 0 ∨ arg.appended_items.length ≠ 0 ∨
       arg.deleted_items.length ≠ 0 ∨ arg.prepended_items.length ≠ 0 ∨
       arg.ordered_items.length ≠ 0 then
      .error "Currently TinyUSDZ does not support ListOp with different ListEdit qualifiers."
    else
      match mapAPISchemaItems arg.added_items with
      | .error e => .error e
      | .ok names => .ok ⟨.Add, names⟩
  else if arg.appended_items.length ≠ 0 then
    if arg.explicit_items.length ≠ 0 ∨ arg.added_items.length ≠ 0 ∨
       arg.deleted_items.length ≠ 0 ∨ arg.prepended_items.length ≠ 0 ∨
       arg.ordered_items.length ≠ 0 then
      .error "Currently TinyUSDZ does not support ListOp with different ListEdit qualifiers."
    else
      match mapAPISchemaItems arg.appended_items with
      | .error e => .error e
      | .ok names => .ok ⟨.Append, names⟩
  else if arg.deleted_items.length ≠ 0 then
    if arg.explicit_items.length ≠ 0 ∨ arg.added_items.length ≠ 0 ∨
       arg.appended_items.length ≠ 0 ∨ arg.prepended_items.length ≠ 0 ∨
       arg.ordered_items.length ≠ 0 then
      .error "Currently TinyUSDZ does not support ListOp with different ListEdit qualifiers."
    else
      match mapAPISchemaItems arg.deleted_items with
      | .error e => .error e
      | .ok names => .ok ⟨.Delete, names⟩
  else if arg.prepended_items.length ≠ 0 then
    if arg.explicit_items.length ≠ 0 ∨ arg.added_items.length ≠ 0 ∨
       arg.appended_items.length ≠ 0 ∨ arg.deleted_items.length ≠ 0 ∨
       arg.ordered_items.length ≠ 0 then
      .error "Currently TinyUSDZ does not support ListOp with different ListEdit qualifiers."
    else
      match mapAPISchemaItems arg.prepended_items with
      | .error e => .error e
      | .ok names => .ok ⟨.Prepend, names⟩
  else if arg.ordered_items.length ≠ 0 then
    if arg.explicit_items.length ≠ 0 ∨ arg.added_items.length ≠ 0 ∨
       arg.appended_items.length ≠ 0 ∨ arg.deleted_items.length ≠ 0 ∨
       arg.prepended_items.length ≠ 0 then
      .error "Currently TinyUSDZ does not support ListOp with different ListEdit qualifiers."
    else
      .error "TODO: Ordered ListOp items."
  else
    .error "Internal error: ListOp conversion."

/-- C7: a non-explicit `apiSchemas` list-op with two or more non-empty
buckets is rejected by `ToAPISchemas` with the multi-qualifier error, and a
non-explicit list-op whose only non-empty bucket is Order is rejected as
unsupported. -/
theorem ToAPISchemas_multi_bucket_rejected :
    (∀ lop : ListOp String, lop.is_explicit = false →
       2 ≤ nonEmptyBucketCount lop →
       ToAPISchemas lop =
         .error "Currently TinyUSDZ does not support ListOp with different ListEdit qualifiers.") ∧
    (∀ lop : ListOp String, lop.is_explicit = false →
       lop.explicit_items = [] → lop.added_items = [] →
       lop.appended_items = [] → lop.deleted_items = [] →
       lop.prepended_items = [] → lop.ordered_items ≠ [] →
       ToAPISchemas lop = .error "TODO: Ordered ListOp items.") := by
  constructor
  · intro lop hexp h2
    rcases lop with ⟨ie, e, a, p, ap, d, o⟩
    simp only at hexp
    subst hexp
    unfold ToAPISchemas nonEmptyBucketCount at *
    simp only at h2 ⊢
    cases e <;> cases a <;> cases p <;> cases ap <;> cases d <;> cases o <;>
      simp_all
  · intro lop hexp he ha hap hd hp ho
    rcases lop with ⟨ie, e, a, p, ap, d, o⟩
    simp only at hexp he ha hap hd hp ho
    subst hexp
    subst he
    subst ha
    subst hap
    subst hd
    subst hp
    unfold ToAPISchemas
    cases o with
    | nil => exact absurd rfl ho
    | cons x xs => simp

/-- Witness for the C7 theorem at concrete inputs: Added and Appended both
non-empty fails with the multi-qualifier error; an Order-only list-op fails
as unsupported. -/
theorem ToAPISchemas_multi_bucket_rejected_witness :
    ToAPISchemas ⟨false, [], ["MaterialBindingAPI"], [], ["SkelBindingAPI"], [], []⟩ =
      .error "Currently TinyUSDZ does not support ListOp with different ListEdit qualifiers." ∧
    ToAPISchemas ⟨false, [], [], [], [], [], ["MaterialBindingAPI"]⟩ =
      .error "TODO: Ordered ListOp items." :=
  ⟨ToAPISchemas_multi_bucket_rejected.1
      ⟨false, [], ["MaterialBindingAPI"], [], ["SkelBindingAPI"], [], []⟩
      rfl (by decide),
   ToAPISchemas_multi_bucket_rejected.2
      ⟨false, [], [], [], [], [], ["MaterialBindingAPI"]⟩
      rfl rfl rfl rfl rfl rfl (by decide)⟩

/-- `crate::CrateReader::Node` (crate-reader.hh, not under src/): the
reconstruction pipeline only consumes its ordered child index list; paths are
looked up through the path tables. -/
structure Node where
  children : List Nat
deriving DecidableEq, Repr, Inhabited

/-- The decoded tables harvested from the crate reader
(`_nodes`, `_specs`, `_paths`, `_elemPaths`, `_live_fieldsets` in
`USDCReader::Impl`). -/
structure CrateData where
  nodes : List Node
  specs : List Spec
  paths : List Path
  elemPaths : List Path
  live_fieldsets : List (Nat × List FieldValue)
deriving DecidableEq, Repr

/-- Lookup of `_live_fieldsets` (a `std::map<Index, FieldValuePairVector>`). -/
def lookupFieldSet (cd : CrateData) (idx : Nat) : Option (List FieldValue) :=
  (cd.live_fieldsets.find? (fun kv => kv.1 = idx)).map (fun kv => kv.2)

/-- `prim::PropertyMap` is `std::map<std::string, Property>`; modelled as an
association list with `std::map` key semantics. -/
abbrev PropertyMap : Type := List (String × Property)

/-- `std::map::emplace`: insert only when the key is not present; an existing
entry is kept and the new value is dropped. -/
def emplaceProp (props : PropertyMap) (name : String) (prop : Property) :
    PropertyMap :=
  if props.any (fun kv => kv.1 = name) then props else props ++ [(name, prop)]

/-- Default `Spec` used to model `_specs[i]` reads (always guarded by a
bounds check in the source). -/
def specDefault : Spec := ⟨0, 0, .Unknown⟩

/-- Loop body of `USDCReader::Impl::BuildPropertyMap` (usdc-reader.cc lines
590-663): for each property-child node index look up its spec, skip non
Attribute/Relationship specs, parse the property and `emplace` it under the
path's property-part name.  Warnings from `ParseProperty` accumulate. -/
def buildPropertyMapAux (cfg : USDCReaderConfig) (cd : CrateData)
    (psmap : List (Nat × Nat)) :
    List Nat → PropertyMap → List String →
    Except String (PropertyMap × List String)
  | [], props, warns => .ok (props, warns)
  | child :: rest, props, warns =>
    if cd.nodes.length ≤ child then
      .error "Invalid child node id"
    else
      match psmapLookup psmap child with
      | none => buildPropertyMapAux cfg cd psmap rest props warns
      | some spec_index =>
        if cd.specs.length ≤ spec_index then
          .error "Invalid specifier id"
        else
          if (cd.specs.getD spec_index specDefault).spec_type = SpecType.Attribute ∨
             (cd.specs.getD spec_index specDefault).spec_type = SpecType.Relationship then
            match GetPath cd.paths (cd.specs.getD spec_index specDefault).path_index with
            | none => .error "Invalid PathIndex."
            | some path =>
              match lookupFieldSet cd (cd.specs.getD spec_index specDefault).fieldset_index with
              | none => .error "FieldSet id must exist in live fieldsets."
              | some child_fvs =>
                match ParseProperty cfg
                    (cd.specs.getD spec_index specDefault).spec_type child_fvs with
                | .error _ =>
                  .error "Failed to construct Property from FieldValuePairVector."
                | .ok (prop, ws) =>
                  buildPropertyMapAux cfg cd psmap rest
                    (emplaceProp props path.GetPropPart prop) (warns ++ ws)
          else
            buildPropertyMapAux cfg cd psmap rest props warns

/-- `USDCReader::Impl::BuildPropertyMap`. -/
def BuildPropertyMap (cfg : USDCReaderConfig) (cd : CrateData)
    (pathIndices : List Nat) (psmap : List (Nat × Nat)) :
    Except String (PropertyMap × List String) :=
  buildPropertyMapAux cfg cd psmap pathIndices [] []

/-- Concrete Prim node scenario for C5: two property children whose paths
carry the same property-part name `x` but whose fieldsets declare different
types. -/
def c5Crate : CrateData :=
  ⟨[⟨[1, 2]⟩, ⟨[]⟩, ⟨[]⟩],
   [⟨1, 0, .Attribute⟩, ⟨2, 1, .Attribute⟩],
   [⟨"/root", "", true⟩, ⟨"/root", "x", true⟩, ⟨"/root", "x", true⟩],
   [⟨"/root", "", true⟩, ⟨"/root", "x", true⟩, ⟨"/root", "x", true⟩],
   [(0, [("typeName", .vToken "float")]), (1, [("typeName", .vToken "double")])]⟩

/-- C5 counterexample: with two property specs sharing the property name `x`,
`BuildPropertyMap` succeeds with the FIRST parsed property kept, the later
one silently dropped (`std::map::emplace` does not overwrite), and NO
warning is emitted — the claim expects a warning and the later property to
win. -/
theorem BuildPropertyMap_duplicate_keeps_first_silently :
    BuildPropertyMap exampleConfig c5Crate [1, 2] [(1, 0), (2, 1)] =
      .ok ([("x", Property.fromTypeName "float" false)], []) ∧
    Property.fromTypeName "float" false ≠ Property.fromTypeName "double" false := by
  refine ⟨rfl, by decide⟩

/-- C5 (amended): duplicate property names in a Prim's property children are
resolved keep-first: the insertion uses `std::map::emplace` semantics, so an
entry already present is kept unchanged and the later-parsed property is
silently discarded; no warning is emitted for the duplicate. -/
theorem BuildPropertyMap_duplicate_policy :
    (∀ (props : PropertyMap) (name : String) (prop : Property),
       props.any (fun kv => kv.1 = name) = true →
       emplaceProp props name prop = props) ∧
    BuildPropertyMap exampleConfig c5Crate [1, 2] [(1, 0), (2, 1)] =
      .ok ([("x", Property.fromTypeName "float" false)], []) := by
  constructor
  · intro props name prop h
    unfold emplaceProp
    rw [if_pos h]
  · rfl

/-- Witness for the amended C5 theorem at a concrete input: an existing entry
under `x` is kept by `emplaceProp`. -/
theorem BuildPropertyMap_duplicate_policy_witness :
    emplaceProp [("x", Property.fromTypeName "float" false)] "x"
        (Property.fromTypeName "double" false) =
      [("x", Property.fromTypeName "float" false)] :=
  BuildPropertyMap_duplicate_policy.1
    [("x", Property.fromTypeName "float" false)] "x"
    (Property.fromTypeName "double" false) (by decide)

/-- `PrimMeta` from prim-types.hh (line 523): the fields `ParsePrimFields`
can populate (the extra `meta`/`stringData` members are never written by the
USDC reader). -/
structure PrimMeta where
  active : Option Bool
  kind : Option Kind
  assetInfo : Option CustomDataType
  customData : Option CustomDataType
  doc : Option StringData
  comment : Option StringData
  apiSchemas : Option APISchemas
  sceneName : Option String
deriving DecidableEq, Repr

def PrimMeta.empty : PrimMeta :=
  ⟨none, none, none, none, none, none, none, none⟩

/-- Output locals of `USDCReader::Impl::ParsePrimFields` (usdc-reader.cc
lines 1457-1597). -/
structure PrimFieldsState where
  typeName : Option String
  specifier : Option Specifier
  properties : List String
  primMeta : PrimMeta
  warns : List String
deriving DecidableEq, Repr

def PrimFieldsState.init : PrimFieldsState :=
  ⟨none, none, [], PrimMeta.empty, []⟩

/-- One iteration of the `ParsePrimFields` field loop. -/
def parsePrimField (st : PrimFieldsState) (fv : FieldValue) :
    Except String PrimFieldsState :=
  if fv.1 = "typeName" then
    match fv.2 with
    | .vToken t => .ok { st with typeName := some t }
    | _ => .error "`typeName` must be type `token`."
  else if fv.1 = "specifier" then
    match fv.2 with
    | .vSpecifier sp => .ok { st with specifier := some sp }
    | _ => .error "`specifier` must be type `Specifier`."
  else if fv.1 = "properties" then
    match fv.2 with
    | .vTokenVector ts => .ok { st with properties := ts }
    | _ => .error "`properties` must be type `token[]`."
  else if fv.1 = "primChildren" then
    match fv.2 with
    | .vTokenVector _ => .ok st
    | _ => .error "`primChildren` must be type `token[]`."
  else if fv.1 = "active" then
    match fv.2 with
    | .vBool b => .ok { st with primMeta := { st.primMeta with active := some b } }
    | _ => .error "`active` must be type `bool`."
  else if fv.1 = "assetInfo" then
    match fv.2 with
    | .vDict d => .ok { st with primMeta := { st.primMeta with assetInfo := some d } }
    | _ => .error "`assetInfo` must be type `dictionary`."
  else if fv.1 = "kind" then
    match fv.2 with
    | .vToken t =>
      match KindFromString t with
      | some k => .ok { st with primMeta := { st.primMeta with kind := some k } }
      | none => .error "Invalid token for `kind` Prim metadata"
    | _ => .error "`kind` must be type `token`."
  else if fv.1 = "apiSchemas" then
    match fv.2 with
    | .vListOpToken lop =>
      match ToAPISchemas lop with
      | .error e => .error ("Failed to validate `apiSchemas`: " ++ e)
      | .ok schemas =>
        .ok { st with primMeta := { st.primMeta with apiSchemas := some schemas } }
    | _ => .error "`apiSchemas` must be type `ListOp[Token]`."
  else if fv.1 = "documentation" then
    match fv.2 with
    | .vString s =>
      .ok { st with primMeta := { st.primMeta with doc := some ⟨s, hasNewline s⟩ } }
    | _ => .error "`documentation` must be type `string`."
  else if fv.1 = "comment" then
    match fv.2 with
    | .vString s =>
      .ok { st with primMeta := { st.primMeta with comment := some ⟨s, hasNewline s⟩ } }
    | _ => .error "`comment` must be type `string`."
  else if fv.1 = "customData" then
    match fv.2 with
    | .vDict d => .ok { st with primMeta := { st.primMeta with customData := some d } }
    | _ => .error "`customData` must be type `dictionary`."
  else if fv.1 = "sceneName" then
    match fv.2 with
    | .vString s => .ok { st with primMeta := { st.primMeta with sceneName := some s } }
    | _ => .error "`sceneName` must be type `string`."
  else
    .ok { st with warns := st.warns ++ ["PrimProp TODO: " ++ fv.1] }

/-- `USDCReader::Impl::ParsePrimFields` from usdc-reader.cc (lines
1457-1597). -/
def ParsePrimFields (fvs : List FieldValue) : Except String PrimFieldsState :=
  fvs.foldlM parsePrimField PrimFieldsState.init

/-- `StageMetas` (prim-types.hh): the stage-level metadata
`ReconstrcutStageMeta` can author; unauthored fields are `none` (the source
uses typed attributes with fallbacks). -/
structure StageMetas where
  upAxis : Option Axis
  metersPerUnit : Option ℚ
  timeCodesPerSecond : Option ℚ
  startTimeCode : Option ℚ
  endTimeCode : Option ℚ
  defaultPrim : Option String
  customLayerData : Option CustomDataType
  doc : Option StringData
  comment : Option StringData
deriving DecidableEq, Repr

def StageMetas.empty : StageMetas :=
  ⟨none, none, none, none, none, none, none, none, none⟩

/-- Locals of `ReconstrcutStageMeta` (the metas, the advisory `primChildren`
token list and the accumulated warnings). -/
structure StageMetaState where
  metas : StageMetas
  primChildren : List String
  warns : List String
deriving DecidableEq, Repr

/-- One iteration of the `ReconstrcutStageMeta` field loop (usdc-reader.cc
lines 1260-1382). -/
def stageMetaField (st : StageMetaState) (fv : FieldValue) :
    Except String StageMetaState :=
  if fv.1 = "upAxis" then
    match fv.2 with
    | .vToken t =>
      if t = "Y" then .ok { st with metas := { st.metas with upAxis := some .Y } }
      else if t = "Z" then .ok { st with metas := { st.metas with upAxis := some .Z } }
      else if t = "X" then .ok { st with metas := { st.metas with upAxis := some .X } }
      else .error "`upAxis` must be X, Y or Z"
    | _ => .error "`upAxis` must be `token` type."
  else if fv.1 = "metersPerUnit" then
    match fv.2 with
    | .vFloat f => .ok { st with metas := { st.metas with metersPerUnit := some (float_to_double f) } }
    | .vDouble d => .ok { st with metas := { st.metas with metersPerUnit := some d } }
    | _ => .error "`metersPerUnit` value must be double or float type"
  else if fv.1 = "timeCodesPerSecond" then
    match fv.2 with
    | .vFloat f => .ok { st with metas := { st.metas with timeCodesPerSecond := some (float_to_double f) } }
    | .vDouble d => .ok { st with metas := { st.metas with timeCodesPerSecond := some d } }
    | _ => .error "`timeCodesPerSecond` value must be double or float type"
  else if fv.1 = "startTimeCode" then
    match fv.2 with
    | .vFloat f => .ok { st with metas := { st.metas with startTimeCode := some (float_to_double f) } }
    | .vDouble d => .ok { st with metas := { st.metas with startTimeCode := some d } }
    | _ => .error "`startTimeCode` value must be double or float type"
  else if fv.1 = "endTimeCode" then
    match fv.2 with
    | .vFloat f => .ok { st with metas := { st.metas with endTimeCode := some (float_to_double f) } }
    | .vDouble d => .ok { st with metas := { st.metas with endTimeCode := some d } }
    | _ => .error "`endTimeCode` value must be double or float type"
  else if fv.1 = "defaultPrim" then
    match fv.2 with
    | .vToken t => .ok { st with metas := { st.metas with defaultPrim := some t } }
    | _ => .error "`defaultPrim` must be `token` type."
  else if fv.1 = "customLayerData" then
    match fv.2 with
    | .vDict d => .ok { st with metas := { st.metas with customLayerData := some d } }
    | _ => .error "customLayerData must be `dictionary` type"
  else if fv.1 = "primChildren" then
    match fv.2 with
    | .vTokenVector ts => .ok { st with primChildren := ts }
    | _ => .error "Type must be `token[]` for `primChildren`"
  else if fv.1 = "documentation" then
    match fv.2 with
    | .vString s => .ok { st with metas := { st.metas with doc := some ⟨s, hasNewline s⟩ } }
    | _ => .error "Type must be `string` for `documentation`"
  else if fv.1 = "comment" then
    match fv.2 with
    | .vString s => .ok { st with metas := { st.metas with comment := some ⟨s, hasNewline s⟩ } }
    | _ => .error "Type must be `string` for `comment`"
  else
    .ok { st with warns := st.warns ++ ["[StageMeta] TODO: " ++ fv.1] }

/-- `USDCReader::Impl::ReconstrcutStageMeta` (sic) from usdc-reader.cc (lines
1244-1385). -/
def ReconstrcutStageMeta (fvs : List FieldValue) :
    Except String StageMetaState :=
  fvs.foldlM stageMetaField ⟨StageMetas.empty, [], []⟩

/-- A reconstructed `Prim`: its element path, name, resolved type name, the
property map built by `BuildPropertyMap`, the parsed Prim metadata and the
reconstructed children.  The concrete typed schema payload
(`prim-reconstruct.cc`, not under src/) is modelled from the spec as the
(typeName, property-map) pair itself. -/
inductive Prim where
  | mk (elementPath : Path) (name : String) (typeName : String)
       (props : PropertyMap) (meta : PrimMeta) (children : List Prim)

def Prim.children : Prim → List Prim
  | .mk _ _ _ _ _ c => c

def Prim.appendChild : Prim → Prim → Prim
  | .mk e n t p m c, child => .mk e n t p m (c ++ [child])

def Prim.withElementPath : Prim → Path → Prim
  | .mk _ n t p m c, e => .mk e n t p m c

/-- `Stage`: stage metas plus the root prim list. -/
structure Stage where
  metas : StageMetas
  root_prims : List Prim

/-- Mutable reader state threaded through the Prim tree reconstruction:
`_prim_table`, the output `Stage`, and the accumulated `_warn`/`_err`
strings (errors pushed without aborting, e.g. by a failed schema
reconstruction, land in `errs`). -/
structure RState where
  prim_table : List Int
  stage : Stage
  warns : List String
  errs : List String

def RState.init : RState := ⟨[], ⟨StageMetas.empty, []⟩, [], []⟩

def RState.pushWarn (st : RState) (w : String) : RState :=
  { st with warns := st.warns ++ [w] }

/-- `std::set<int32_t>::insert` on `_prim_table`. -/
def insertPrimTable (t : List Int) (i : Int) : List Int :=
  if i ∈ t then t else t ++ [i]

/-- The closed set of Prim type names dispatched by
`ReconstructPrimFromTypeName` (usdc-reader.cc lines 1409-1431); the exact
name strings come from value-types traits (not under src/), modelled from
the spec's schema list. -/
def knownPrimTypeNames : List String :=
  ["Xform", "Model", "Scope", "GeomMesh", "GeomPoints", "GeomCylinder",
   "GeomCube", "GeomCone", "GeomSphere", "GeomCapsule", "GeomBasisCurves",
   "GeomCamera", "LuxSphereLight", "LuxDomeLight", "LuxCylinderLight",
   "LuxDiskLight", "LuxDistantLight", "SkelRoot", "Skeleton",
   "SkelAnimation", "Shader", "Material"]

/-- `USDCReader::Impl::ReconstructPrimFromTypeName` (usdc-reader.cc lines
1387-1440): dispatch on the type name; for a known schema build the property
map and the typed prim value.  `prim::ReconstructPrim<T>` itself is in
prim-reconstruct.cc (not under src/) and is modelled from the spec as always
producing the typed value from the property map.  A failure pushes error
strings but the caller continues (`return nonstd::nullopt` inside
`ReconstructPrimNode`, which still returns true); an unknown type name warns
and produces no Prim. -/
def ReconstructPrimFromTypeName (cfg : USDCReaderConfig) (cd : CrateData)
    (psmap : List (Nat × Nat)) (typeName prim_name : String) (node : Node)
    (meta : PrimMeta) (st : RState) : RState × Option Prim :=
  if typeName ∈ knownPrimTypeNames then
    match BuildPropertyMap cfg cd node.children psmap with
    | .error e =>
      ({ st with errs := st.errs ++
          [e, "Failed to build PropertyMap.", "Failed to reconstruct Prim " ++ typeName] },
       none)
    | .ok (props, ws) =>
      ({ st with warns := st.warns ++ ws },
       some (.mk Path.empty prim_name typeName props meta []))
  else
    ({ st with warns := st.warns ++ ["TODO or unsupported prim type: " ++ typeName] },
     none)

/-- Root (node 0) branch of `ReconstructPrimNode` (usdc-reader.cc lines
1672-1692): verify the element path and the `PseudoRoot` spec type, parse the
stage metas, and mark node 0 in `_prim_table`. -/
def reconstructRootNode (cd : CrateData) (spec : Spec) (fvs : List FieldValue)
    (st : RState) : Except String (RState × Option Prim) :=
  match GetElemPath cd.elemPaths 0 with
  | none => .error "Root Element Path not found."
  | some _ =>
    if spec.spec_type ≠ SpecType.PseudoRoot then
      .error "SpecTypePseudoRoot expected for root layer(Stage) element."
    else
      match ReconstrcutStageMeta fvs with
      | .error e => .error e
      | .ok sm =>
        .ok ({ st with
                stage := { st.stage with metas := sm.metas },
                warns := st.warns ++ sm.warns,
                prim_table := insertPrimTable st.prim_table 0 }, none)

/-- `Def`-specifier branch of the `SpecType::Prim` case (usdc-reader.cc lines
1742-1774): default a missing `typeName` to `Model` with a warning, validate
the prim name, reconstruct the typed prim, and mark the node in
`_prim_table`. -/
def reconstructDefPrim (cfg : USDCReaderConfig) (cd : CrateData)
    (psmap : List (Nat × Nat)) (current : Nat) (elemPath : Path)
    (pf : PrimFieldsState) (st : RState) :
    Except String (RState × Option Prim) :=
  if ¬ ValidatePrimName elemPath.GetPrimPart then
    .error "Invalid Prim name."
  else
    match pf.typeName with
    | some tn =>
      match ReconstructPrimFromTypeName cfg cd psmap tn elemPath.GetPrimPart
          (cd.nodes.getD current default) pf.primMeta st with
      | (st1, prim?) =>
        .ok ({ st1 with
                prim_table := insertPrimTable st1.prim_table (current : Int) },
             prim?.map (fun p => p.withElementPath elemPath))
    | none =>
      match ReconstructPrimFromTypeName cfg cd psmap "Model" elemPath.GetPrimPart
          (cd.nodes.getD current default) pf.primMeta
          (st.pushWarn "Treat this node as Model(where `typeName` is missing.") with
      | (st1, prim?) =>
        .ok ({ st1 with
                prim_table := insertPrimTable st1.prim_table (current : Int) },
             prim?.map (fun p => p.withElementPath elemPath))

/-- `SpecType::Prim` case of `ReconstructPrimNode` (usdc-reader.cc lines
1711-1774): look up the element path, then dispatch on the specifier
(`Def` reconstructs; `Class`/`Over` warn and skip the model; anything else is
an error). -/
def reconstructPrimSpecNode (cfg : USDCReaderConfig) (cd : CrateData)
    (psmap : List (Nat × Nat)) (current : Nat) (pf : PrimFieldsState)
    (st : RState) : Except String (RState × Option Prim) :=
  match GetElemPath cd.elemPaths current with
  | none => .error "Element path not found."
  | some elemPath =>
    match pf.specifier with
    | some .Def => reconstructDefPrim cfg cd psmap current elemPath pf st
    | some .Class =>
      .ok (st.pushWarn "TODO: `class` specifier. skipping this model...", none)
    | some .Over =>
      .ok (st.pushWarn "TODO: `over` specifier. skipping this model...", none)
    | some .Invalid => .error "Invalid Specifier."
    | none =>
      .error "`specifier` field is missing for FieldSets with SpecType::Prim."

/-- `USDCReader::Impl::ReconstructPrimNode` from usdc-reader.cc (lines
1599-1791).  The `level` parameter of the source is only used for debug
printing and is dropped.  `ParsePrimFields` warnings are pushed directly to
`_warn` in the source; here they are merged as soon as the parse succeeds. -/
def ReconstructPrimNode (cfg : USDCReaderConfig) (cd : CrateData)
    (psmap : List (Nat × Nat)) (parent : Int) (current : Nat) (st : RState) :
    Except String (RState × Option Prim) :=
  match psmapLookup psmap current with
  | none => .ok (st, none)
  | some spec_index =>
    if cd.specs.length ≤ spec_index then
      .error "Invalid specifier id"
    else if ((cd.specs.getD spec_index specDefault).spec_type = SpecType.Attribute ∨
             (cd.specs.getD spec_index specDefault).spec_type = SpecType.Relationship) ∧
            parent ∈ st.prim_table then
      .ok (st, none)
    else
      match lookupFieldSet cd (cd.specs.getD spec_index specDefault).fieldset_index with
      | none => .error "FieldSet id must exist in live fieldsets."
      | some fvs =>
        if cfg.kMaxFieldValuePairs < fvs.length then
          .error "Too much FieldValue pairs."
        else if current = 0 then
          reconstructRootNode cd (cd.specs.getD spec_index specDefault) fvs st
        else
          match ParsePrimFields fvs with
          | .error e => .error e
          | .ok pf =>
            if (cd.specs.getD spec_index specDefault).spec_type = SpecType.Prim then
              reconstructPrimSpecNode cfg cd psmap current pf
                { st with warns := st.warns ++ pf.warns }
            else if (cd.specs.getD spec_index specDefault).spec_type = SpecType.VariantSet then
              .ok (({ st with warns := st.warns ++ pf.warns }).pushWarn
                "TODO: SpecTypeVariantSet", none)
            else if (cd.specs.getD spec_index specDefault).spec_type = SpecType.Variant then
              .ok (({ st with warns := st.warns ++ pf.warns }).pushWarn
                "TODO: SpecTypeVariant", none)
            else if (cd.specs.getD spec_index specDefault).spec_type = SpecType.Attribute then
              .ok (({ st with warns := st.warns ++ pf.warns }).pushWarn
                "TODO: SpecTypeAttribute(in conjunction with Class/Over specifier?)", none)
            else
              .error "TODO: unsupported specTy"

/-- Attach-or-discard step at the end of `ReconstructPrimRecursively`
(usdc-reader.cc lines 1836-1845): a prim whose parent is node 0 goes to the
Stage's root list; otherwise it is handed to the caller only when the caller
passed a non-null parent prim pointer, and silently dropped (no warning, no
error) when it did not. -/
def attachOrDiscard (parent : Int) (rootPrimExists : Bool)
    (prim? : Option Prim) (st : RState) : RState × Option Prim :=
  if parent = 0 then
    match prim? with
    | some p =>
      ({ st with stage := { st.stage with root_prims := st.stage.root_prims ++ [p] } },
       none)
    | none => (st, none)
  else
    match prim?, rootPrimExists with
    | some p, true => (st, some p)
    | _, _ => (st, none)

mutual

/-- `USDCReader::Impl::ReconstructPrimRecursively` from usdc-reader.cc (lines
1793-1848).  The source carries a `level` counted up from 0 and fails when
`level > kMaxPrimNestLevel`; here the equivalent remaining depth budget
`fuel = kMaxPrimNestLevel + 1 - level` is counted down, failing when it
reaches 0, which makes the recursion structurally well-founded. -/
def ReconstructPrimRecursively (cfg : USDCReaderConfig) (cd : CrateData)
    (psmap : List (Nat × Nat)) :
    Nat → Int → Int → Bool → RState → Except String (RState × Option Prim)
  | 0, _, _, _, _ => .error "Prim hierarchy is too deep."
  | fuel + 1, parent, current, rootPrimExists, st =>
    if current < 0 ∨ (cd.nodes.length : Int) ≤ current then
      .error "Invalid current node id"
    else
      match ReconstructPrimNode cfg cd psmap parent current.toNat st with
      | .error e => .error e
      | .ok (st1, prim?) =>
        match ReconstructPrimChildren cfg cd psmap fuel current
            ((cd.nodes.getD current.toNat default).children) prim? st1 with
        | .error e => .error e
        | .ok (st2, prim2?) =>
          .ok (attachOrDiscard parent rootPrimExists prim2? st2)
termination_by fuel _ _ _ _ => (fuel, 0)

/-- The child loop of `ReconstructPrimRecursively` (usdc-reader.cc lines
1823-1834): recurse into each child with the freshly reconstructed prim as
the parent-prim pointer, accumulating the children the recursive calls hand
back into that prim. -/
def ReconstructPrimChildren (cfg : USDCReaderConfig) (cd : CrateData)
    (psmap : List (Nat × Nat)) :
    Nat → Int → List Nat → Option Prim → RState →
    Except String (RState × Option Prim)
  | _, _, [], parentPrim, st => .ok (st, parentPrim)
  | fuel, parentIdx, c :: rest, parentPrim, st =>
    match ReconstructPrimRecursively cfg cd psmap fuel parentIdx (c : Int)
        parentPrim.isSome st with
    | .error e => .error e
    | .ok (st1, attach?) =>
      ReconstructPrimChildren cfg cd psmap fuel parentIdx rest
        (match attach?, parentPrim with
         | some p, some pp => some (pp.appendChild p)
         | _, _ => parentPrim) st1
termination_by fuel _ cs _ _ => (fuel, cs.length + 1)

end

/-- `USDCReader::Impl::ReconstructStage` from usdc-reader.cc (lines
2284-2335): empty scene warns and succeeds; build the
`path_index -> spec_index` map (duplicates are fatal); then reconstruct from
node 0 with `parent = -1` and full depth budget. -/
def ReconstructStage (cfg : USDCReaderConfig) (cd : CrateData) :
    Except String RState :=
  if cd.nodes.length = 0 then
    .ok { RState.init with warns := ["Empty scene."] }
  else
    match buildPathIndexToSpecIndexMap cd.specs with
    | .error e => .error e
    | .ok psmap =>
      match ReconstructPrimRecursively cfg cd psmap
          (cfg.kMaxPrimNestLevel + 1) (-1) 0 false RState.init with
      | .error e => .error e
      | .ok (st, _) => .ok st

/-- Spec type of the spec record attached to a node index through the
`path_index -> spec_index` map (node and path indices share one index
space). -/
def nodeSpecType (cd : CrateData) (psmap : List (Nat × Nat)) (i : Int) :
    Option SpecType :=
  if i < 0 then none
  else
    match psmapLookup psmap i.toNat with
    | none => none
    | some spec_index =>
      if cd.specs.length ≤ spec_index then none
      else some (cd.specs.getD spec_index specDefault).spec_type

/-- C9's invariant: every node index in `_prim_table` is either node 0 with
a verified `PseudoRoot` spec type, or a node whose spec type is `Prim`. -/
def PrimTableInv (cd : CrateData) (psmap : List (Nat × Nat))
    (t : List Int) : Prop :=
  ∀ i ∈ t,
    (i = 0 ∧ nodeSpecType cd psmap 0 = some SpecType.PseudoRoot) ∨
    nodeSpecType cd psmap i = some SpecType.Prim

theorem insertPrimTable_inv (cd : CrateData) (psmap : List (Nat × Nat))
    (t : List Int) (i : Int) (hinv : PrimTableInv cd psmap t)
    (hi : (i = 0 ∧ nodeSpecType cd psmap 0 = some SpecType.PseudoRoot) ∨
          nodeSpecType cd psmap i = some SpecType.Prim) :
    PrimTableInv cd psmap (insertPrimTable t i) := by
  unfold insertPrimTable
  split
  · exact hinv
  · intro j hj
    rcases List.mem_append.mp hj with hj | hj
    · exact hinv j hj
    · simp only [List.mem_singleton] at hj
      exact hj ▸ hi

theorem ReconstructPrimFromTypeName_prim_table (cfg : USDCReaderConfig)
    (cd : CrateData) (psmap : List (Nat × Nat)) (tn pn : String) (node : Node)
    (meta : PrimMeta) (st : RState) :
    (ReconstructPrimFromTypeName cfg cd psmap tn pn node meta st).1.prim_table =
      st.prim_table := by
  unfold ReconstructPrimFromTypeName
  split
  · split <;> rfl
  · rfl

theorem attachOrDiscard_prim_table (parent : Int) (rpe : Bool)
    (prim? : Option Prim) (st : RState) :
    (attachOrDiscard parent rpe prim? st).1.prim_table = st.prim_table := by
  unfold attachOrDiscard
  split
  · split <;> rfl
  · split <;> rfl

theorem reconstructRootNode_table (cd : CrateData) (spec : Spec)
    (fvs : List FieldValue) (st st' : RState) (p : Option Prim)
    (h : reconstructRootNode cd spec fvs st = .ok (st', p)) :
    st'.prim_table = insertPrimTable st.prim_table 0 ∧
    spec.spec_type = SpecType.PseudoRoot := by
  unfold reconstructRootNode at h
  cases hep : GetElemPath cd.elemPaths 0 with
  | none => rw [hep] at h; exact Except.noConfusion h
  | some ep =>
    rw [hep] at h
    by_cases hps : spec.spec_type ≠ SpecType.PseudoRoot
    · rw [if_pos hps] at h
      exact Except.noConfusion h
    · rw [if_neg hps] at h
      push_neg at hps
      cases hsm : ReconstrcutStageMeta fvs with
      | error e => rw [hsm] at h; exact Except.noConfusion h
      | ok sm =>
        rw [hsm] at h
        simp only [Except.ok.injEq, Prod.mk.injEq] at h
        exact ⟨by rw [← h.1], hps⟩

theorem reconstructDefPrim_table (cfg : USDCReaderConfig) (cd : CrateData)
    (psmap : List (Nat × Nat)) (current : Nat) (elemPath : Path)
    (pf : PrimFieldsState) (st st' : RState) (p : Option Prim)
    (h : reconstructDefPrim cfg cd psmap current elemPath pf st = .ok (st', p)) :
    st'.prim_table = insertPrimTable st.prim_table (current : Int) := by
  unfold reconstructDefPrim at h
  by_cases hv : ¬ ValidatePrimName elemPath.GetPrimPart
  · rw [if_pos hv] at h
    exact Except.noConfusion h
  · rw [if_neg hv] at h
    cases hty : pf.typeName with
    | some tn =>
      rw [hty] at h
      simp only [Except.ok.injEq, Prod.mk.injEq] at h
      rw [← h.1]
      exact congrArg (fun t => insertPrimTable t (current : Int))
        (ReconstructPrimFromTypeName_prim_table cfg cd psmap tn
          elemPath.GetPrimPart (cd.nodes.getD current default) pf.primMeta st)
    | none =>
      rw [hty] at h
      simp only [Except.ok.injEq, Prod.mk.injEq] at h
      rw [← h.1]
      exact congrArg (fun t => insertPrimTable t (current : Int))
        (ReconstructPrimFromTypeName_prim_table cfg cd psmap "Model"
          elemPath.GetPrimPart (cd.nodes.getD current default) pf.primMeta
          (st.pushWarn "Treat this node as Model(where `typeName` is missing."))

theorem reconstructPrimSpecNode_table (cfg : USDCReaderConfig)
    (cd : CrateData) (psmap : List (Nat × Nat)) (current : Nat)
    (pf : PrimFieldsState) (st st' : RState) (p : Option Prim)
    (h : reconstructPrimSpecNode cfg cd psmap current pf st = .ok (st', p)) :
    st'.prim_table = insertPrimTable st.prim_table (current : Int) ∨
    st'.prim_table = st.prim_table := by
  unfold reconstructPrimSpecNode at h
  cases hep : GetElemPath cd.elemPaths current with
  | none => rw [hep] at h; exact Except.noConfusion h
  | some elemPath =>
    rw [hep] at h
    cases hsp : pf.specifier with
    | none => rw [hsp] at h; exact Except.noConfusion h
    | some sp =>
      rw [hsp] at h
      cases sp with
      | Def =>
        exact Or.inl (reconstructDefPrim_table cfg cd psmap current elemPath
          pf st st' p h)
      | Class =>
        simp only [Except.ok.injEq, Prod.mk.injEq] at h
        exact Or.inr (by rw [← h.1]; rfl)
      | Over =>
        simp only [Except.ok.injEq, Prod.mk.injEq] at h
        exact Or.inr (by rw [← h.1]; rfl)
      | Invalid => exact Except.noConfusion h

theorem ReconstructPrimNode_inv (cfg : USDCReaderConfig) (cd : CrateData)
    (psmap : List (Nat × Nat)) (parent : Int) (current : Nat)
    (st st' : RState) (p : Option Prim)
    (h : ReconstructPrimNode cfg cd psmap parent current st = .ok (st', p))
    (hinv : PrimTableInv cd psmap st.prim_table) :
    PrimTableInv cd psmap st'.prim_table := by
  unfold ReconstructPrimNode at h
  cases hpl : psmapLookup psmap current with
  | none =>
    rw [hpl] at h
    simp only [Except.ok.injEq, Prod.mk.injEq] at h
    rw [← h.1]
    exact hinv
  | some spec_index =>
    rw [hpl] at h
    simp only at h
    by_cases hb : cd.specs.length ≤ spec_index
    · rw [if_pos hb] at h
      exact Except.noConfusion h
    · rw [if_neg hb] at h
      by_cases hskip :
          ((cd.specs.getD spec_index specDefault).spec_type = SpecType.Attribute ∨
           (cd.specs.getD spec_index specDefault).spec_type = SpecType.Relationship) ∧
          parent ∈ st.prim_table
      · rw [if_pos hskip] at h
        simp only [Except.ok.injEq, Prod.mk.injEq] at h
        rw [← h.1]
        exact hinv
      · rw [if_neg hskip] at h
        cases hfs : lookupFieldSet cd
            (cd.specs.getD spec_index specDefault).fieldset_index with
        | none => rw [hfs] at h; exact Except.noConfusion h
        | some fvs =>
          rw [hfs] at h
          simp only at h
          by_cases hsz : cfg.kMaxFieldValuePairs < fvs.length
          · rw [if_pos hsz] at h
            exact Except.noConfusion h
          · rw [if_neg hsz] at h
            by_cases hcur : current = 0
            · rw [if_pos hcur] at h
              obtain ⟨htab, hps⟩ := reconstructRootNode_table cd
                (cd.specs.getD spec_index specDefault) fvs st st' p h
              rw [htab]
              refine insertPrimTable_inv cd psmap st.prim_table 0 hinv
                (Or.inl ⟨rfl, ?_⟩)
              unfold nodeSpecType
              rw [if_neg (by omega : ¬ (0 : Int) < 0)]
              simp only [Int.toNat_zero]
              rw [hcur] at hpl
              rw [hpl]
              simp only
              rw [if_neg hb, hps]
            · rw [if_neg hcur] at h
              cases hpf : ParsePrimFields fvs with
              | error e => rw [hpf] at h; exact Except.noConfusion h
              | ok pf =>
                rw [hpf] at h
                simp only at h
                by_cases hty :
                    (cd.specs.getD spec_index specDefault).spec_type = SpecType.Prim
                · rw [if_pos hty] at h
                  rcases reconstructPrimSpecNode_table cfg cd psmap current pf
                      { st with warns := st.warns ++ pf.warns } st' p h with
                    htab | htab
                  · rw [htab]
                    refine insertPrimTable_inv cd psmap _ _ hinv (Or.inr ?_)
                    unfold nodeSpecType
                    rw [if_neg (by omega : ¬ ((current : Int)) < 0)]
                    simp only [Int.toNat_natCast]
                    rw [hpl]
                    simp only
                    rw [if_neg hb, hty]
                  · rw [htab]
                    exact hinv
                · rw [if_neg hty] at h
                  by_cases h1 :
                      (cd.specs.getD spec_index specDefault).spec_type =
                        SpecType.VariantSet
                  · rw [if_pos h1] at h
                    simp only [Except.ok.injEq, Prod.mk.injEq] at h
                    rw [← h.1]
                    exact hinv
                  · rw [if_neg h1] at h
                    by_cases h2 :
                        (cd.specs.getD spec_index specDefault).spec_type =
                          SpecType.Variant
                    · rw [if_pos h2] at h
                      simp only [Except.ok.injEq, Prod.mk.injEq] at h
                      rw [← h.1]
                      exact hinv
                    · rw [if_neg h2] at h
                      by_cases h3 :
                          (cd.specs.getD spec_index specDefault).spec_type =
                            SpecType.Attribute
                      · rw [if_pos h3] at h
                        simp only [Except.ok.injEq, Prod.mk.injEq] at h
                        rw [← h.1]
                        exact hinv
                      · rw [if_neg h3] at h
                        exact Except.noConfusion h

/-- Invariant-preservation statement for `ReconstructPrimRecursively` at a
given depth budget. -/
def RecPreserves (cfg : USDCReaderConfig) (cd : CrateData)
    (psmap : List (Nat × Nat)) (fuel : Nat) : Prop :=
  ∀ (parent current : Int) (rpe : Bool) (st st' : RState) (p? : Option Prim),
    ReconstructPrimRecursively cfg cd psmap fuel parent current rpe st =
      .ok (st', p?) →
    PrimTableInv cd psmap st.prim_table →
    PrimTableInv cd psmap st'.prim_table

theorem recChildren_inv_of (cfg : USDCReaderConfig) (cd : CrateData)
    (psmap : List (Nat × Nat)) (fuel : Nat)
    (hA : RecPreserves cfg cd psmap fuel) :
    ∀ (cs : List Nat) (parentIdx : Int) (pp : Option Prim) (st st' : RState)
      (p? : Option Prim),
    ReconstructPrimChildren cfg cd psmap fuel parentIdx cs pp st =
      .ok (st', p?) →
    PrimTableInv cd psmap st.prim_table →
    PrimTableInv cd psmap st'.prim_table := by
  intro cs
  induction cs with
  | nil =>
    intro parentIdx pp st st' p? h hinv
    rw [ReconstructPrimChildren.eq_def] at h
    simp only [Except.ok.injEq, Prod.mk.injEq] at h
    rw [← h.1]
    exact hinv
  | cons c rest ih =>
    intro parentIdx pp st st' p? h hinv
    rw [ReconstructPrimChildren.eq_def] at h
    simp only at h
    cases hr : ReconstructPrimRecursively cfg cd psmap fuel parentIdx (c : Int)
        pp.isSome st with
    | error e => rw [hr] at h; exact Except.noConfusion h
    | ok pr =>
      rw [hr] at h
      simp only at h
      exact ih parentIdx _ pr.1 st' p? h (hA parentIdx (c : Int) pp.isSome st
        pr.1 pr.2 (by rw [hr]) hinv)

theorem rec_inv_succ (cfg : USDCReaderConfig) (cd : CrateData)
    (psmap : List (Nat × Nat)) (fuel : Nat)
    (hA : RecPreserves cfg cd psmap fuel) :
    RecPreserves cfg cd psmap (fuel + 1) := by
  intro parent current rpe st st' p? h hinv
  rw [ReconstructPrimRecursively.eq_def] at h
  simp only at h
  by_cases hbd : current < 0 ∨ (cd.nodes.length : Int) ≤ current
  · rw [if_pos hbd] at h
    exact Except.noConfusion h
  · rw [if_neg hbd] at h
    cases hn : ReconstructPrimNode cfg cd psmap parent current.toNat st with
    | error e => rw [hn] at h; exact Except.noConfusion h
    | ok pr1 =>
      rw [hn] at h
      simp only at h
      cases hc : ReconstructPrimChildren cfg cd psmap fuel current
          ((cd.nodes.getD current.toNat default).children) pr1.2 pr1.1 with
      | error e => rw [hc] at h; exact Except.noConfusion h
      | ok pr2 =>
        rw [hc] at h
        simp only [Except.ok.injEq] at h
        have hinv1 : PrimTableInv cd psmap pr1.1.prim_table :=
          ReconstructPrimNode_inv cfg cd psmap parent current.toNat st pr1.1
            pr1.2 (by rw [hn]) hinv
        have hinv2 : PrimTableInv cd psmap pr2.1.prim_table :=
          recChildren_inv_of cfg cd psmap fuel hA
            ((cd.nodes.getD current.toNat default).children) current pr1.2
            pr1.1 pr2.1 pr2.2 (by rw [hc]) hinv1
        have htab : st'.prim_table = pr2.1.prim_table := by
          have := congrArg Prod.fst h
          simp only at this
          rw [← this]
          exact attachOrDiscard_prim_table parent rpe pr2.2 pr2.1
        rw [htab]
        exact hinv2

theorem rec_inv_all (cfg : USDCReaderConfig) (cd : CrateData)
    (psmap : List (Nat × Nat)) : ∀ fuel, RecPreserves cfg cd psmap fuel := by
  intro fuel
  induction fuel with
  | zero =>
    intro parent current rpe st st' p? h _
    rw [ReconstructPrimRecursively.eq_def] at h
    exact Except.noConfusion h
  | succ n ih => exact rec_inv_succ cfg cd psmap n ih

end tinyusdz
namespace tinyusdz
theorem RPC_nil (cfg : USDCReaderConfig) (cd : CrateData)
    (psmap : List (Nat × Nat)) (fuel : Nat) (pi : Int) (pp : Option Prim)
    (st : RState) :
    ReconstructPrimChildren cfg cd psmap fuel pi [] pp st = .ok (st, pp) := by
  rw [ReconstructPrimChildren.eq_def]

theorem RPC_singleton (cfg : USDCReaderConfig) (cd : CrateData)
    (psmap : List (Nat × Nat)) (fuel : Nat) (pi : Int) (c : Nat)
    (pp : Option Prim) (st : RState) :
    ReconstructPrimChildren cfg cd psmap fuel pi [c] pp st =
      match ReconstructPrimRecursively cfg cd psmap fuel pi (c : Int)
          pp.isSome st with
      | .error e => .error e
      | .ok (st1, attach?) =>
        ReconstructPrimChildren cfg cd psmap fuel pi []
          (match attach?, pp with
           | some p, some q => some (q.appendChild p)
           | _, _ => pp) st1 := by
  rw [ReconstructPrimChildren.eq_def]

def orphanCfg : USDCReaderConfig := ⟨16, 1024, 10⟩
def orphanCrate : CrateData :=
  ⟨[⟨[1]⟩, ⟨[2]⟩, ⟨[]⟩],
   [⟨0, 0, .PseudoRoot⟩, ⟨1, 1, .Prim⟩, ⟨2, 2, .Prim⟩],
   [⟨"/", "", true⟩, ⟨"/a", "", true⟩, ⟨"/a/b", "", true⟩],
   [⟨"/", "", true⟩, ⟨"a", "", true⟩, ⟨"b", "", true⟩],
   [(0, []), (1, [("specifier", .vSpecifier .Over)]),
    (2, [("specifier", .vSpecifier .Def), ("typeName", .vToken "Xform")])]⟩
def orphanPsmap : List (Nat × Nat) := [(0, 0), (1, 1), (2, 2)]
def orphanPrim : Prim := ⟨⟨"b", "", true⟩, "b", "Xform", [], PrimMeta.empty, []⟩
def overWarn : String := "TODO: `over` specifier. skipping this model..."
def orphanRoot : RState := ⟨[0], ⟨StageMetas.empty, []⟩, [], []⟩
def orphanOver : RState := ⟨[0], ⟨StageMetas.empty, []⟩, [overWarn], []⟩
def orphanFinal : RState := ⟨[0, 2], ⟨StageMetas.empty, []⟩, [overWarn], []⟩

theorem orphan_psmap :
    buildPathIndexToSpecIndexMap orphanCrate.specs = .ok orphanPsmap := rfl

theorem orphan_node2 :
    ReconstructPrimNode orphanCfg orphanCrate orphanPsmap 1 2 orphanOver =
      .ok (orphanFinal, some orphanPrim) := rfl

theorem orphan_rpr2 :
    ReconstructPrimRecursively orphanCfg orphanCrate orphanPsmap 9 1 2 false
      orphanOver = .ok (orphanFinal, none) := by
  rw [show (9 : Nat) = 8 + 1 from rfl]
  rw [ReconstructPrimRecursively]
  have h1 : ReconstructPrimNode orphanCfg orphanCrate orphanPsmap 1
      (Int.toNat 2) orphanOver = .ok (orphanFinal, some orphanPrim) := rfl
  simp only [h1]
  norm_num
  rw [ReconstructPrimChildren.eq_def]
  rfl

theorem orphan_rpr1 :
    ReconstructPrimRecursively orphanCfg orphanCrate orphanPsmap 10 0 1 false
      orphanRoot = .ok (orphanFinal, none) := by
  rw [show (10 : Nat) = 9 + 1 from rfl]
  rw [ReconstructPrimRecursively]
  have h1 : ReconstructPrimNode orphanCfg orphanCrate orphanPsmap 0
      (Int.toNat 1) orphanRoot = .ok (orphanOver, none) := rfl
  simp only [h1]
  norm_num
  rw [if_neg (by decide : ¬ orphanCrate.nodes.length ≤ 1)]
  have hcs : (orphanCrate.nodes[1]?.getD default).children = [2] := rfl
  rw [hcs, RPC_singleton]
  simp only [Option.isSome_none, Nat.cast_ofNat, orphan_rpr2]
  rw [RPC_nil]
  rfl

theorem orphan_rpr0 :
    ReconstructPrimRecursively orphanCfg orphanCrate orphanPsmap 11 (-1) 0
      false RState.init = .ok (orphanFinal, none) := by
  rw [show (11 : Nat) = 10 + 1 from rfl]
  rw [ReconstructPrimRecursively]
  have h1 : ReconstructPrimNode orphanCfg orphanCrate orphanPsmap (-1)
      (Int.toNat 0) RState.init = .ok (orphanRoot, none) := rfl
  simp only [h1]
  norm_num
  rw [if_neg (by decide : ¬ orphanCrate.nodes = [])]
  have hcs : (orphanCrate.nodes[0]?.getD default).children = [1] := rfl
  rw [hcs, RPC_singleton]
  simp only [Option.isSome_none, Nat.cast_one, orphan_rpr1]
  rw [RPC_nil]
  rfl

theorem orphan_stage :
    ReconstructStage orphanCfg orphanCrate = .ok orphanFinal := by
  unfold ReconstructStage
  rw [if_neg (by decide : ¬ orphanCrate.nodes.length = 0), orphan_psmap]
  simp only
  rw [show orphanCfg.kMaxPrimNestLevel + 1 = 11 from rfl, orphan_rpr0]
end tinyusdz

namespace tinyusdz
theorem attachOrDiscard_discards (parent : Int) (prim? : Option Prim)
    (st : RState) (hp : parent ≠ 0) :
    attachOrDiscard parent false prim? st = (st, none) := by
  unfold attachOrDiscard
  rw [if_neg hp]
  cases prim? <;> rfl

/-- C9: after a successful `ReconstructStage`, every node index recorded in
the `_prim_table` marker list is either node 0, whose spec-type was checked
to be `PseudoRoot`, or a node whose spec-type is `Prim`
(`PrimTableInv`). -/
theorem ReconstructStage_prim_table_spec_types (cfg : USDCReaderConfig)
    (cd : CrateData) (psmap : List (Nat × Nat)) (st' : RState)
    (hm : buildPathIndexToSpecIndexMap cd.specs = .ok psmap)
    (h : ReconstructStage cfg cd = .ok st') :
    PrimTableInv cd psmap st'.prim_table := by
  unfold ReconstructStage at h
  by_cases hn : cd.nodes.length = 0
  · rw [if_pos hn] at h
    injection h with h
    rw [← h]
    intro i hi
    exact absurd hi (List.not_mem_nil i)
  · rw [if_neg hn, hm] at h
    simp only at h
    cases hr : ReconstructPrimRecursively cfg cd psmap
        (cfg.kMaxPrimNestLevel + 1) (-1) 0 false RState.init with
    | error e => rw [hr] at h; exact Except.noConfusion h
    | ok pr =>
      obtain ⟨stf, pf⟩ := pr
      rw [hr] at h
      simp only at h
      injection h with h
      rw [← h]
      exact rec_inv_all cfg cd psmap (cfg.kMaxPrimNestLevel + 1) (-1) 0 false
        RState.init stf pf (by rw [hr])
        (fun i hi => absurd hi (List.not_mem_nil i))

theorem ReconstructStage_prim_table_spec_types_witness :
    buildPathIndexToSpecIndexMap orphanCrate.specs = .ok orphanPsmap ∧
    ReconstructStage orphanCfg orphanCrate = .ok orphanFinal ∧
    PrimTableInv orphanCrate orphanPsmap orphanFinal.prim_table :=
  ⟨rfl, orphan_stage, ReconstructStage_prim_table_spec_types orphanCfg
    orphanCrate orphanPsmap orphanFinal rfl orphan_stage⟩

/-- C10: a successfully reconstructed Def Prim whose parent is neither node 0
nor a Prim-producing node is silently discarded: `attachOrDiscard` with a
non-root parent and no root Prim drops the Prim without touching the state,
and in the concrete scene /a (Over, skipped) with child /a/b (Def Xform),
node 2 reconstructs a Prim which never reaches the Stage: no root prims, no
errors, and only the `over`-skip warning. -/
theorem orphan_def_prim_silently_discarded :
    (∀ (parent : Int) (prim? : Option Prim) (st : RState), parent ≠ 0 →
      attachOrDiscard parent false prim? st = (st, none)) ∧
    ReconstructPrimNode orphanCfg orphanCrate orphanPsmap 1 2 orphanOver =
      .ok (orphanFinal, some orphanPrim) ∧
    ReconstructPrimRecursively orphanCfg orphanCrate orphanPsmap 9 1 2 false
      orphanOver = .ok (orphanFinal, none) ∧
    ReconstructStage orphanCfg orphanCrate = .ok orphanFinal ∧
    orphanFinal.stage.root_prims = [] ∧
    orphanFinal.errs = [] ∧
    orphanFinal.warns = [overWarn] :=
  ⟨fun parent prim? st hp => attachOrDiscard_discards parent prim? st hp,
   orphan_node2, orphan_rpr2, orphan_stage, rfl, rfl, rfl⟩

theorem orphan_def_prim_silently_discarded_witness :
    attachOrDiscard 5 false (some orphanPrim) orphanOver =
      (orphanOver, none) :=
  orphan_def_prim_silently_discarded.1 5 (some orphanPrim) orphanOver
    (by decide)
end tinyusdz

namespace tinyusdz
theorem RPR_zero (cfg : USDCReaderConfig) (cd : CrateData)
    (psmap : List (Nat × Nat)) (parent current : Int) (rpe : Bool)
    (st : RState) :
    ReconstructPrimRecursively cfg cd psmap 0 parent current rpe st =
      .error "Prim hierarchy is too deep." := by
  rw [ReconstructPrimRecursively.eq_def]

def depthCfg : USDCReaderConfig := ⟨16, 1024, 2⟩
def depthCrate : CrateData :=
  ⟨[⟨[1]⟩, ⟨[2]⟩, ⟨[3]⟩, ⟨[]⟩],
   [⟨0, 0, .PseudoRoot⟩, ⟨1, 1, .Prim⟩, ⟨2, 1, .Prim⟩, ⟨3, 1, .Prim⟩],
   [⟨"/", "", true⟩, ⟨"/a", "", true⟩, ⟨"/a/b", "", true⟩,
    ⟨"/a/b/c", "", true⟩],
   [⟨"/", "", true⟩, ⟨"a", "", true⟩, ⟨"b", "", true⟩, ⟨"c", "", true⟩],
   [(0, []),
    (1, [("specifier", .vSpecifier .Def), ("typeName", .vToken "Xform")])]⟩
def depthPsmap : List (Nat × Nat) := [(0, 0), (1, 1), (2, 2), (3, 3)]
def depthPrimA : Prim := ⟨⟨"a", "", true⟩, "a", "Xform", [], PrimMeta.empty, []⟩
def depthPrimB : Prim := ⟨⟨"b", "", true⟩, "b", "Xform", [], PrimMeta.empty, []⟩
def depthStA : RState := ⟨[0], ⟨StageMetas.empty, []⟩, [], []⟩
def depthStB : RState := ⟨[0, 1], ⟨StageMetas.empty, []⟩, [], []⟩
def depthStC : RState := ⟨[0, 1, 2], ⟨StageMetas.empty, []⟩, [], []⟩

theorem depth_psmap :
    buildPathIndexToSpecIndexMap depthCrate.specs = .ok depthPsmap := rfl

theorem depth_rpr2 :
    ReconstructPrimRecursively depthCfg depthCrate depthPsmap 1 1 2 true
      depthStB = .error "Prim hierarchy is too deep." := by
  rw [show (1 : Nat) = 0 + 1 from rfl]
  rw [ReconstructPrimRecursively]
  have h1 : ReconstructPrimNode depthCfg depthCrate depthPsmap 1
      (Int.toNat 2) depthStB = .ok (depthStC, some depthPrimB) := rfl
  simp only [h1]
  norm_num
  rw [if_neg (by decide : ¬ depthCrate.nodes.length ≤ 2)]
  have hcs : (depthCrate.nodes[Int.toNat 2]?.getD default).children
      = [3] := rfl
  rw [hcs, RPC_singleton]
  simp only [Option.isSome_some, RPR_zero]

theorem depth_rpr1 :
    ReconstructPrimRecursively depthCfg depthCrate depthPsmap 2 0 1 false
      depthStA = .error "Prim hierarchy is too deep." := by
  rw [show (2 : Nat) = 1 + 1 from rfl]
  rw [ReconstructPrimRecursively]
  have h1 : ReconstructPrimNode depthCfg depthCrate depthPsmap 0
      (Int.toNat 1) depthStA = .ok (depthStB, some depthPrimA) := rfl
  simp only [h1]
  norm_num
  have hcs : (depthCrate.nodes[1]?.getD default).children = [2] := rfl
  rw [hcs, RPC_singleton]
  simp only [Option.isSome_some, Nat.cast_ofNat, depth_rpr2]
  rw [if_neg (by decide : ¬ depthCrate.nodes.length ≤ 1)]

theorem depth_rpr0 :
    ReconstructPrimRecursively depthCfg depthCrate depthPsmap 3 (-1) 0 false
      RState.init = .error "Prim hierarchy is too deep." := by
  rw [show (3 : Nat) = 2 + 1 from rfl]
  rw [ReconstructPrimRecursively]
  have h1 : ReconstructPrimNode depthCfg depthCrate depthPsmap (-1)
      (Int.toNat 0) RState.init = .ok (depthStA, none) := rfl
  simp only [h1]
  norm_num
  have hcs : (depthCrate.nodes[0]?.getD default).children = [1] := rfl
  rw [hcs, RPC_singleton]
  simp only [Option.isSome_none, Nat.cast_one, depth_rpr1]
  rw [if_neg (by decide : ¬ depthCrate.nodes = [])]

theorem depth_stage :
    ReconstructStage depthCfg depthCrate =
      .error "Prim hierarchy is too deep." := by
  unfold ReconstructStage
  rw [if_neg (by decide : ¬ depthCrate.nodes.length = 0), depth_psmap]
  simp only
  rw [show depthCfg.kMaxPrimNestLevel + 1 = 3 from rfl, depth_rpr0]

/-- C8: the reconstruction recursion is depth-bounded: once the remaining
depth budget (`kMaxPrimNestLevel + 1 - level`) hits zero,
`ReconstructPrimRecursively` fails with the depth error on every input, and
the concrete scene with `kMaxPrimNestLevel + 1 = 3` nested Def Prims
(/a/b/c under the pseudo-root, `kMaxPrimNestLevel = 2`) makes
`ReconstructStage` fail with that error. -/
theorem ReconstructPrimRecursively_depth_limit :
    (∀ (cfg : USDCReaderConfig) (cd : CrateData) (psmap : List (Nat × Nat))
       (parent current : Int) (rpe : Bool) (st : RState),
      ReconstructPrimRecursively cfg cd psmap 0 parent current rpe st =
        .error "Prim hierarchy is too deep.") ∧
    ReconstructStage depthCfg depthCrate =
      .error "Prim hierarchy is too deep." :=
  ⟨fun cfg cd psmap parent current rpe st =>
    RPR_zero cfg cd psmap parent current rpe st, depth_stage⟩

theorem ReconstructPrimRecursively_depth_limit_witness :
    ReconstructPrimRecursively depthCfg depthCrate depthPsmap 0 (-1) 0 false
      RState.init = .error "Prim hierarchy is too deep." :=
  ReconstructPrimRecursively_depth_limit.1 depthCfg depthCrate depthPsmap
    (-1) 0 false RState.init
end tinyusdz

namespace tinyusdz
def dupCrate : CrateData :=
  ⟨[⟨[]⟩],
   [⟨5, 0, .Prim⟩, ⟨5, 1, .Prim⟩],
   [⟨"/", "", true⟩],
   [⟨"/", "", true⟩],
   [(0, [])]⟩

/-- C4: the `path_index -> spec_index` map construction skips every spec
whose `path_index` is the `~0u` sentinel (so no sentinel key ever appears in
a successfully built map), and two non-sentinel specs claiming the same
`path_index` make the map construction, and with it `ReconstructStage`
itself, fail with the duplicate-path-index error. -/
theorem buildPSMap_sentinel_skip_and_dup_fatal :
    (∀ (specs : List Spec) (m : List (Nat × Nat)),
      buildPathIndexToSpecIndexMap specs = .ok m →
      ∀ kv ∈ m, kv.1 ≠ kInvalidPathIndex) ∧
    (∀ (specs : List Spec) (k : Nat), k ≠ kInvalidPathIndex →
      2 ≤ (specs.filter (fun s => s.path_index = k)).length →
      buildPathIndexToSpecIndexMap specs =
        .error "Multiple PathIndex found in Crate data.") ∧
    (∀ (cfg : USDCReaderConfig) (cd : CrateData) (k : Nat),
      cd.nodes.length ≠ 0 → k ≠ kInvalidPathIndex →
      2 ≤ (cd.specs.filter (fun s => s.path_index = k)).length →
      ReconstructStage cfg cd =
        .error "Multiple PathIndex found in Crate data.") := by
  refine ⟨?_, ?_, ?_⟩
  · intro specs m h kv hkv
    exact buildPSMapAux_no_sentinel specs 0 [] m
      (fun kv hkv => absurd hkv (List.not_mem_nil kv)) h kv hkv
  · intro specs k hk hcount
    exact buildPSMapAux_dup_of_count specs 0 [] k hk hcount
  · intro cfg cd k hn hk hcount
    unfold ReconstructStage
    rw [if_neg hn]
    have hb : buildPathIndexToSpecIndexMap cd.specs =
        .error "Multiple PathIndex found in Crate data." :=
      buildPSMapAux_dup_of_count cd.specs 0 [] k hk hcount
    rw [hb]

theorem buildPSMap_sentinel_skip_and_dup_fatal_witness :
    dupCrate.nodes.length ≠ 0 ∧ (5 : Nat) ≠ kInvalidPathIndex ∧
    2 ≤ (dupCrate.specs.filter (fun s => s.path_index = 5)).length ∧
    ReconstructStage exampleConfig dupCrate =
      .error "Multiple PathIndex found in Crate data." :=
  ⟨by decide, by decide, by decide,
   buildPSMap_sentinel_skip_and_dup_fatal.2.2 exampleConfig dupCrate 5
     (by decide) (by decide) (by decide)⟩
end tinyusdz
